import Mathlib

/-!
Verification model of the studio bookkeeping repository.

The data layer (`src/lib/data.ts`) stores books, categories, accounts,
transactions, notes and recycle-bin items as JSON arrays and mutates them
through synchronous CRUD operations.  This file embeds those stores as Lean
lists and each operation as a pure function on an explicit `DataState`.
Monetary amounts are rationals; `Date.now()` timestamps and ISO date strings
are represented by a natural number `now` threaded into every operation that
generates identifiers or dates.  Operations that `throw` are embedded as
`Except String` with the thrown message; a throw aborts the request, so the
error branch carries no state.
-/

namespace Studio

/-- Debit/credit side of a transaction entry. -/
inductive EntryType where
  | debit
  | credit
deriving DecidableEq, Repr

/-- The opposite side: `type === 'debit' ? 'credit' : 'debit'`. -/
def EntryType.inv : EntryType → EntryType
  | .debit => .credit
  | .credit => .debit

/-- `TransactionEntry` from `src/lib/types.ts`. -/
structure TransactionEntry where
  accountId : String
  amount : ℚ
  type : EntryType
  description : Option String := none
deriving DecidableEq, Repr

/-- `Transaction` from `src/lib/types.ts`; the ISO date string is modelled by
its time value. -/
structure Transaction where
  id : String
  date : ℕ
  description : String
  entries : List TransactionEntry
  bookId : String
  highlight : Option String := none
deriving DecidableEq, Repr

/-- `Book` from `src/lib/types.ts`. -/
structure Book where
  id : String
  name : String
deriving DecidableEq, Repr

/-- `Category` from `src/lib/types.ts`. -/
structure Category where
  id : String
  name : String
  bookId : String
deriving DecidableEq, Repr

/-- `Account` from `src/lib/types.ts`. -/
structure Account where
  id : String
  name : String
  categoryId : String
  bookId : String
  openingBalance : Option ℚ := none
  openingBalanceType : Option EntryType := none
deriving DecidableEq, Repr

/-- `Note` from `src/lib/types.ts`. -/
structure Note where
  id : String
  bookId : String
  text : String
  isCompleted : Bool
  createdAt : ℕ
deriving DecidableEq, Repr

/-- The dynamically-typed recycle-bin payload, represented as a tagged union
over the four entity shapes that the delete operations snapshot. -/
inductive BinEntity where
  | book : Book → BinEntity
  | category : Category → BinEntity
  | account : Account → BinEntity
  | txn : Transaction → BinEntity
deriving DecidableEq, Repr

/-- `item.id` of a recycle-bin payload (the snapshot keeps the entity's id). -/
def BinEntity.entityId : BinEntity → String
  | .book b => b.id
  | .category c => c.id
  | .account a => a.id
  | .txn t => t.id

/-- A recycle-bin row: the snapshot plus the dynamic `type` tag and the
`deletedAt` stamp added by `addToRecycleBin`. -/
structure BinItem where
  entity : BinEntity
  typ : String
  deletedAt : ℕ
deriving DecidableEq, Repr

/-- The six JSON stores of `src/lib/data.ts`. -/
structure DataState where
  books : List Book
  categories : List Category
  accounts : List Account
  transactions : List Transaction
  notes : List Note
  bin : List BinItem
deriving DecidableEq, Repr

/-- Storage with every store empty. -/
def emptyState : DataState :=
  { books := [], categories := [], accounts := [], transactions := [],
    notes := [], bin := [] }

/-! ### Generic list helpers used by the embedding -/

/-- `findIndex` + `splice(index, 1)`: the first element satisfying `p`
together with the list with that element removed. -/
def extractFirst {α : Type} (p : α → Bool) : List α → Option (α × List α)
  | [] => none
  | x :: xs =>
    if p x then some (x, xs)
    else match extractFirst p xs with
      | some (y, ys) => some (y, x :: ys)
      | none => none

/-- Stable insertion into a list sorted by the Boolean relation `le`. -/
def insertBy {α : Type} (le : α → α → Bool) (x : α) : List α → List α
  | [] => [x]
  | y :: ys => if le y x then y :: insertBy le x ys else x :: y :: ys

/-- Stable sort by the Boolean relation `le` (models `Array.prototype.sort`
with the corresponding comparator). -/
def sortBy {α : Type} (le : α → α → Bool) : List α → List α
  | [] => []
  | x :: xs => insertBy le x (sortBy le xs)

theorem insertBy_perm {α : Type} (le : α → α → Bool) (x : α) (l : List α) :
    List.Perm (insertBy le x l) (x :: l) := by
  induction l with
  | nil => simp [insertBy]
  | cons y ys ih =>
    by_cases h : le y x
    · simp only [insertBy, h, if_true]
      exact List.Perm.trans (List.Perm.cons y ih) (List.Perm.swap x y ys)
    · simp [insertBy, h]

theorem sortBy_perm {α : Type} (le : α → α → Bool) (l : List α) :
    List.Perm (sortBy le l) l := by
  induction l with
  | nil => simp [sortBy]
  | cons x xs ih =>
    exact List.Perm.trans (insertBy_perm le x (sortBy le xs)) (List.Perm.cons x ih)

theorem mem_sortBy {α : Type} (le : α → α → Bool) (x : α) (l : List α) :
    x ∈ sortBy le l ↔ x ∈ l :=
  (sortBy_perm le l).mem_iff

/-- Case-insensitive comparison key (`String.prototype.toLowerCase`),
written over the character list so that it evaluates in the kernel. -/
def lower (s : String) : String := String.mk (s.data.map Char.toLower)

/-- `String.prototype.startsWith`, written over the character list so that it
evaluates in the kernel. -/
def strStarts (s pre : String) : Bool := pre.data.isPrefixOf s.data

/-- Decimal digits of `n`, with explicit fuel so that the recursion is
structural (`n + 1` fuel always suffices). -/
def natStringAux : ℕ → ℕ → List Char
  | 0, _ => []
  | fuel + 1, n =>
    if n < 10 then [Nat.digitChar n]
    else natStringAux fuel (n / 10) ++ [Nat.digitChar (n % 10)]

/-- The decimal rendering of a timestamp, used for the template-literal ids
`` `txn_${Date.now()}` `` etc. -/
def natString (n : ℕ) : String := String.mk (natStringAux (n + 1) n)

/-- Decidable equality for `Except`, missing from the library. -/
instance {ε α : Type} [DecidableEq ε] [DecidableEq α] : DecidableEq (Except ε α)
  | .ok x, .ok y =>
    if h : x = y then .isTrue (by rw [h])
    else .isFalse (by intro hc; cases hc; exact h rfl)
  | .error x, .error y =>
    if h : x = y then .isTrue (by rw [h])
    else .isFalse (by intro hc; cases hc; exact h rfl)
  | .ok _, .error _ => .isFalse (by intro hc; cases hc)
  | .error _, .ok _ => .isFalse (by intro hc; cases hc)

/-- `findIndex` + in-place assignment: replaces the first element satisfying
`p` by `f` of it, returning the new list and the new element. -/
def updateFirst {α : Type} (p : α → Bool) (f : α → α) : List α → Option (List α × α)
  | [] => none
  | x :: xs =>
    if p x then some (f x :: xs, f x)
    else match updateFirst p f xs with
      | some (ys, y) => some (x :: ys, y)
      | none => none

/-- Does `needle` occur as a contiguous run inside `hay`? -/
def charsContain (needle : List Char) : List Char → Bool
  | [] => needle.isEmpty
  | c :: cs => needle.isPrefixOf (c :: cs) || charsContain needle cs

/-- `String.prototype.includes`, used by the category keyword heuristic. -/
def strContains (hay needle : String) : Bool :=
  charsContain needle.toList hay.toList

/-! ### Recycle bin (`src/lib/data.ts`, `addToRecycleBin` / `restoreItem` /
`deletePermanently`) -/

/-- `addToRecycleBin`: stamps each snapshot with `deletedAt` and prepends the
batch to the bin (`[...itemsToAdd, ...bin]`). -/
def addToRecycleBin (s : DataState) (now : ℕ) (items : List (BinEntity × String)) : DataState :=
  { s with bin :=
      items.map (fun it => { entity := it.1, typ := it.2, deletedAt := now }) ++ s.bin }

/-- The bin filter `i.id !== item.id || i.type !== item.type` shared by
`restoreItem` and `deletePermanently`. -/
def removeBinMatches (bin : List BinItem) (item : BinItem) : List BinItem :=
  bin.filter (fun i => i.entity.entityId != item.entity.entityId || i.typ != item.typ)

/-- `restoreItem`: re-inserts the snapshot (minus `deletedAt`/`type`) into the
store selected by the `type` tag, then removes the bin entry.  The dynamic
payload is a tagged union here; a tag/payload mismatch, unreachable from the
delete operations, is mapped to an error. -/
def restoreItem (s : DataState) (item : BinItem) : Except String DataState :=
  match item.typ, item.entity with
  | "account", .account a =>
    .ok { s with accounts := s.accounts ++ [a], bin := removeBinMatches s.bin item }
  | "transaction", .txn t =>
    .ok { s with transactions := s.transactions ++ [t], bin := removeBinMatches s.bin item }
  | "category", .category c =>
    .ok { s with categories := s.categories ++ [c], bin := removeBinMatches s.bin item }
  | "book", .book b =>
    .ok { s with books := s.books ++ [b], bin := removeBinMatches s.bin item }
  | "account", _ => .error "Recycle bin payload does not match its type tag."
  | "transaction", _ => .error "Recycle bin payload does not match its type tag."
  | "category", _ => .error "Recycle bin payload does not match its type tag."
  | "book", _ => .error "Recycle bin payload does not match its type tag."
  | t, _ => .error ("Unknown item type for restore: " ++ t)

/-- `deletePermanently`: removes the bin entry only. -/
def deletePermanently (s : DataState) (item : BinItem) : DataState :=
  { s with bin := removeBinMatches s.bin item }

/-! ### Book functions (`src/lib/data.ts` lines 107-193) -/

/-- `addBook`: rejects a case-insensitive duplicate name, then creates the
book, its `Equity` category and its `Opening Balance Equity` account. -/
def addBook (s : DataState) (now : ℕ) (name : String) : Except String (DataState × Book) :=
  if (s.books.find? (fun b => lower b.name == lower name)).isSome then
    .error "A book with this name already exists."
  else
    let newBook : Book := { id := "book_" ++ natString now, name := name }
    let equityCategory : Category :=
      { id := "cat_equity_" ++ newBook.id, name := "Equity", bookId := newBook.id }
    let obeAccount : Account :=
      { id := "acc_opening_balance_equity_" ++ newBook.id,
        name := "Opening Balance Equity",
        categoryId := equityCategory.id, bookId := newBook.id }
    .ok ({ s with
            books := s.books ++ [newBook],
            categories := s.categories ++ [equityCategory],
            accounts := s.accounts ++ [obeAccount] }, newBook)

/-- `getBooks` (JSON-file variant): on empty storage creates a `CASHBOOK`
book via `addBook` (whose id is `book_<timestamp>`). -/
def getBooks (s : DataState) (now : ℕ) : DataState × List Book :=
  if s.books.isEmpty then
    match addBook s now "CASHBOOK" with
    | .ok (s', b) => (s', [b])
    | .error _ => (s, s.books)  -- unreachable: an empty registry has no name clash
  else (s, s.books)

/-- `updateBook`: renames the book found by id in the `getBooks` result. -/
def updateBook (s : DataState) (now : ℕ) (id name : String) :
    Except String (DataState × Book) :=
  let p := getBooks s now
  match updateFirst (fun b => b.id == id) (fun b => { b with name := name }) p.2 with
  | none => .error "Book not found."
  | some (bs, b) => .ok ({ p.1 with books := bs }, b)

/-- `deleteBook`: refuses the default book, cascades the book and all its
transactions/accounts/categories into the bin, then removes them all. -/
def deleteBook (s : DataState) (now : ℕ) (id : String) : Except String DataState :=
  if id == "book_default" then
    .error "Cannot delete the default book."
  else
    let p := getBooks s now
    let s1 := p.1
    match p.2.find? (fun b => b.id == id) with
    | none => .error "Book not found."
    | some bookToDelete =>
      let transactionsToBin := s1.transactions.filter (fun t => t.bookId == id)
      let accountsToBin := s1.accounts.filter (fun a => a.bookId == id)
      let categoriesToBin := s1.categories.filter (fun c => c.bookId == id)
      let s2 := addToRecycleBin s1 now
        ((BinEntity.book bookToDelete, "book") ::
          (transactionsToBin.map (fun t => (BinEntity.txn t, "transaction")) ++
           accountsToBin.map (fun a => (BinEntity.account a, "account")) ++
           categoriesToBin.map (fun c => (BinEntity.category c, "category"))))
      .ok { s2 with
        books := p.2.filter (fun b => b.id != id),
        transactions := s1.transactions.filter (fun t => t.bookId != id),
        accounts := s1.accounts.filter (fun a => a.bookId != id),
        categories := s1.categories.filter (fun c => c.bookId != id) }

/-! ### Categories, accounts, transactions (`src/lib/data.ts` lines 196-551) -/

/-- `getOpeningBalanceEquityAccount`: finds the book's OBE account, creating
it (and, if needed, the `Equity` category) on first use. -/
def getOpeningBalanceEquityAccount (s : DataState) (bookId : String) :
    DataState × Account :=
  match s.accounts.find? (fun a => a.id == "acc_opening_balance_equity_" ++ bookId) with
  | some obe => (s, obe)
  | none =>
    match s.categories.find? (fun c => c.bookId == bookId && lower c.name == "equity") with
    | some equityCategory =>
      let obe : Account :=
        { id := "acc_opening_balance_equity_" ++ bookId,
          name := "Opening Balance Equity",
          categoryId := equityCategory.id, bookId := bookId }
      ({ s with accounts := s.accounts ++ [obe] }, obe)
    | none =>
      let equityCategory : Category := { id := "cat_equity_" ++ bookId, name := "Equity", bookId := bookId }
      let obe : Account :=
        { id := "acc_opening_balance_equity_" ++ bookId,
          name := "Opening Balance Equity",
          categoryId := equityCategory.id, bookId := bookId }
      ({ s with
          categories := s.categories ++ [equityCategory],
          accounts := s.accounts ++ [obe] }, obe)

/-- The four categories seeded for the default book by `getCategories`. -/
def defaultCategories (bookId : String) : List Category :=
  [ { id := "cat_cash_default", name := "Cash", bookId := bookId },
    { id := "cat_capital_default", name := "Capital", bookId := bookId },
    { id := "cat_party_default", name := "Parties", bookId := bookId },
    { id := "cat_expense_default", name := "Expenses", bookId := bookId } ]

/-- `getCategories`: the book's categories; seeds four defaults for
`book_default` when it has none. -/
def getCategories (s : DataState) (bookId : String) : DataState × List Category :=
  let bookCategories := s.categories.filter (fun c => c.bookId == bookId)
  if bookCategories.isEmpty && bookId == "book_default" then
    ({ s with categories := s.categories ++ defaultCategories bookId },
      defaultCategories bookId)
  else (s, bookCategories)

/-- `getAccounts`: the book's accounts. -/
def getAccounts (s : DataState) (bookId : String) : List Account :=
  s.accounts.filter (fun a => a.bookId == bookId)

/-- `getTransactions`: the book's transactions sorted by date descending. -/
def getTransactions (s : DataState) (bookId : String) : List Transaction :=
  sortBy (fun a b => decide (b.date ≤ a.date))
    (s.transactions.filter (fun t => t.bookId == bookId))

/-- The payload of `addTransaction`/`updateTransaction`
(`Omit<Transaction, 'id' | 'bookId'>`). -/
structure TxData where
  date : ℕ
  description : String
  entries : List TransactionEntry
  highlight : Option String := none
deriving DecidableEq, Repr

/-- `addTransaction`: assigns a fresh id and unshifts the transaction onto the
store.  No validation is performed. -/
def addTransaction (s : DataState) (now : ℕ) (bookId : String) (d : TxData) :
    DataState × Transaction :=
  let t : Transaction :=
    { id := "txn_" ++ natString now, date := d.date, description := d.description,
      entries := d.entries, bookId := bookId, highlight := d.highlight }
  ({ s with transactions := t :: s.transactions }, t)

/-- `updateTransaction`: full replace of the first transaction matching
`(id, bookId)`; no validation. -/
def updateTransaction (s : DataState) (bookId id : String) (d : TxData) :
    Except String (DataState × Transaction) :=
  match updateFirst (fun t => t.id == id && t.bookId == bookId)
      (fun t =>
        { t with
          date := d.date
          description := d.description
          entries := d.entries
          highlight := d.highlight }) s.transactions with
  | none => .error "Transaction not found in this book."
  | some (ts, t) => .ok ({ s with transactions := ts }, t)

/-- `updateTransactionHighlight`: sets or clears the highlight. -/
def updateTransactionHighlight (s : DataState) (bookId id : String)
    (highlight : Option String) : Except String DataState :=
  match updateFirst (fun t => t.id == id && t.bookId == bookId)
      (fun t => { t with highlight := highlight }) s.transactions with
  | none => .error "Transaction not found."
  | some (ts, _) => .ok { s with transactions := ts }

/-- `addCategory`: rejects a case-insensitive duplicate within the book. -/
def addCategory (s : DataState) (now : ℕ) (bookId name : String) :
    Except String (DataState × Category) :=
  if (s.categories.find? (fun c => lower c.name == lower name && c.bookId == bookId)).isSome then
    .error "Category already exists in this book."
  else
    let c : Category := { id := "cat_" ++ natString now, name := name, bookId := bookId }
    .ok ({ s with categories := s.categories ++ [c] }, c)

/-- `updateCategory`: renames the category found by `(id, bookId)`, rejecting
a duplicate name. -/
def updateCategory (s : DataState) (bookId id name : String) :
    Except String (DataState × Category) :=
  if (s.categories.find? (fun c => c.id == id && c.bookId == bookId)).isNone then
    .error "Category not found in this book."
  else if (s.categories.find? (fun c =>
      lower c.name == lower name && c.bookId == bookId && c.id != id)).isSome then
    .error ("A category named \"" ++ name ++ "\" already exists in this book.")
  else
    match updateFirst (fun c => c.id == id && c.bookId == bookId)
        (fun c => { c with name := name }) s.categories with
    | some (cs, c) => .ok ({ s with categories := cs }, c)
    | none => .error "Category not found in this book."  -- unreachable

/-- `deleteCategory`: protects `cat_equity_*`, refuses a category in use,
snapshots to the bin, removes by id. -/
def deleteCategory (s : DataState) (now : ℕ) (bookId id : String) :
    Except String DataState :=
  if strStarts id "cat_equity_" then
    .error "Cannot delete the system-generated Equity category."
  else if (getAccounts s bookId).any (fun a => a.categoryId == id) then
    .error "Cannot delete category. It is currently assigned to one or more accounts."
  else
    match s.categories.find? (fun c => c.id == id && c.bookId == bookId) with
    | none => .error "Category not found in this book."
    | some categoryToDelete =>
      let s2 := addToRecycleBin s now [(BinEntity.category categoryToDelete, "category")]
      .ok { s2 with categories := s.categories.filter (fun c => c.id != id) }

/-- `deleteTransaction`: splices out the first transaction matching
`(id, bookId)`, snapshotting it to the bin first. -/
def deleteTransaction (s : DataState) (now : ℕ) (bookId id : String) :
    Except String DataState :=
  match extractFirst (fun t => t.id == id && t.bookId == bookId) s.transactions with
  | none => .error "Transaction not found."
  | some (t, rest) =>
    let s2 := addToRecycleBin s now [(BinEntity.txn t, "transaction")]
    .ok { s2 with transactions := rest }

/-- `deleteMultipleTransactions`: whole-batch delete; fails if any id is
missing from the book. -/
def deleteMultipleTransactions (s : DataState) (now : ℕ) (bookId : String)
    (ids : List String) : Except String DataState :=
  let toDelete := s.transactions.filter (fun t => t.bookId == bookId && ids.contains t.id)
  if toDelete.length != ids.length then
    .error "Some transactions could not be found for deletion."
  else
    let s2 := addToRecycleBin s now (toDelete.map (fun t => (BinEntity.txn t, "transaction")))
    .ok { s2 with transactions :=
      s.transactions.filter (fun t => !(t.bookId == bookId && ids.contains t.id)) }

/-- The payload of `addAccount` (`Omit<Account, 'id' | 'bookId'>`). -/
structure AccountData where
  name : String
  categoryId : String
  openingBalance : Option ℚ := none
  openingBalanceType : Option EntryType := none
deriving DecidableEq, Repr

/-- `addAccount`: rejects a case-insensitive duplicate name, creates the
account, then (for a positive opening balance) creates the paired opening
transaction against the OBE account. -/
def addAccount (s : DataState) (now : ℕ) (bookId : String) (d : AccountData) :
    Except String (DataState × Account) :=
  if d.name != "" &&
      (s.accounts.find? (fun a =>
        a.bookId == bookId && lower a.name == lower d.name)).isSome then
    .error ("An account named \"" ++ d.name ++ "\" already exists in this book.")
  else
    let newAccount : Account :=
      { id := "acc_" ++ natString now, name := d.name,
        categoryId := d.categoryId, bookId := bookId }
    let s1 := { s with accounts := s.accounts ++ [newAccount] }
    match d.openingBalance with
    | some ob =>
      if 0 < ob then
        let p := getOpeningBalanceEquityAccount s1 bookId
        let newAccountEntry : TransactionEntry :=
          { accountId := newAccount.id, amount := ob,
            type := d.openingBalanceType.getD .debit }
        let obeAccountEntry : TransactionEntry :=
          { accountId := p.2.id, amount := ob, type := newAccountEntry.type.inv }
        .ok ((addTransaction p.1 now bookId
          { date := now,
            description := "Opening Balance for " ++ newAccount.name,
            entries := [newAccountEntry, obeAccountEntry] }).1, newAccount)
      else .ok (s1, newAccount)
    | none => .ok (s1, newAccount)

/-- `Partial<Omit<Account, 'id' | 'bookId'>>`: a present field overwrites. -/
structure AccountPatch where
  name : Option String := none
  categoryId : Option String := none
  openingBalance : Option ℚ := none
  openingBalanceType : Option EntryType := none
deriving DecidableEq, Repr

/-- The object spread `{ ...originalAccount, ...data }`. -/
def applyPatch (a : Account) (d : AccountPatch) : Account :=
  { a with
    name := d.name.getD a.name,
    categoryId := d.categoryId.getD a.categoryId,
    openingBalance := match d.openingBalance with
      | some v => some v
      | none => a.openingBalance,
    openingBalanceType := match d.openingBalanceType with
      | some v => some v
      | none => a.openingBalanceType }

/-- The four opening-balance cases of `updateAccount`, keyed by the sentinel
transaction (first argument) and the patched balance (second argument). -/
def openingBalanceCases (s : DataState) (now : ℕ) (bookId accountId : String)
    (d : AccountPatch) (updatedAccount : Account) (nameChanged : Bool) :
    Option Transaction → Option ℚ → Except String DataState
  | some tx, some nb =>
    if 0 < nb then
      -- Case 1: opening balance updated to a non-zero value
      let p := getOpeningBalanceEquityAccount s bookId
      (updateTransaction p.1 bookId tx.id
        { date := tx.date,
          description := "Opening Balance for " ++ updatedAccount.name,
          entries :=
            [ { accountId := accountId, amount := nb,
                type := d.openingBalanceType.getD .debit },
              { accountId := p.2.id, amount := nb,
                type := (d.openingBalanceType.getD .debit).inv } ],
          highlight := tx.highlight }).map (fun r => r.1)
    else if nb == 0 then
      -- Case 2: `newBalance === 0` deletes the opening transaction
      deleteTransaction s now bookId tx.id
    else if nameChanged then
      -- negative balance skips cases 1-3; Case 4 applies on rename
      (updateTransaction s bookId tx.id
        { date := tx.date,
          description := "Opening Balance for " ++ d.name.getD "",
          entries := tx.entries, highlight := tx.highlight }).map (fun r => r.1)
    else .ok s
  | some tx, none =>
    -- Case 2: `!newBalance` also fires when the key is absent
    deleteTransaction s now bookId tx.id
  | none, some nb =>
    if 0 < nb then
      -- Case 3: opening balance introduced on update
      let p := getOpeningBalanceEquityAccount s bookId
      .ok (addTransaction p.1 now bookId
        { date := now,
          description := "Opening Balance for " ++ updatedAccount.name,
          entries :=
            [ { accountId := accountId, amount := nb,
                type := d.openingBalanceType.getD .debit },
              { accountId := p.2.id, amount := nb,
                type := (d.openingBalanceType.getD .debit).inv } ] }).1
    else .ok s
  | none, none => .ok s

/-- The opening-balance step of `updateAccount`: locate the opening
transaction by the sentinel description and dispatch on the four cases. -/
def applyOpeningBalancePatch (s : DataState) (now : ℕ) (bookId accountId : String)
    (d : AccountPatch) (originalAccount updatedAccount : Account)
    (nameChanged : Bool) : Except String DataState :=
  openingBalanceCases s now bookId accountId d updatedAccount nameChanged
    (s.transactions.find? (fun t =>
      t.bookId == bookId &&
      t.description == "Opening Balance for " ++ originalAccount.name &&
      t.entries.any (fun e => e.accountId == accountId)))
    d.openingBalance

/-- `updateAccount` (JSON-file variant, lines 414-490): duplicate-name check,
then `applyOpeningBalancePatch`, then the accounts write.  The final write
uses the accounts array read at the start of the call, mirroring the source's
stale overwrite of any account inserted by `getOpeningBalanceEquityAccount`
in between. -/
def updateAccount (s : DataState) (now : ℕ) (bookId accountId : String)
    (d : AccountPatch) : Except String (DataState × Account) :=
  match s.accounts.find? (fun a => a.id == accountId && a.bookId == bookId) with
  | none => .error "Account not found in this book."
  | some originalAccount =>
    let nameChanged := match d.name with
      | some n => n != "" && n != originalAccount.name
      | none => false
    if nameChanged && (s.accounts.find? (fun a =>
        a.bookId == bookId &&
        (match d.name with
          | some n => lower a.name == lower n
          | none => false) &&
        a.id != accountId)).isSome then
      .error ("An account named \"" ++ d.name.getD "" ++ "\" already exists in this book.")
    else
      let updatedAccount := applyPatch originalAccount d
      match applyOpeningBalancePatch s now bookId accountId d originalAccount
          updatedAccount nameChanged with
      | .error e => .error e
      | .ok sMid =>
        match updateFirst (fun a => a.id == accountId && a.bookId == bookId)
            (fun _ => updatedAccount) s.accounts with
        | some (accs, _) => .ok ({ sMid with accounts := accs }, updatedAccount)
        | none => .error "Account not found in this book."  -- unreachable

/-- The transactions of the book that touch the account
(`accountTransactions` in `deleteAccount`). -/
def accountTransactionsFor (s : DataState) (bookId id : String) : List Transaction :=
  s.transactions.filter (fun t =>
    t.bookId == bookId && t.entries.any (fun e => e.accountId == id))

/-- The account's opening-balance transaction among its transactions, found
by the sentinel description. -/
def openingBalanceTxOf (accountTransactions : List Transaction) (name : String) :
    Option Transaction :=
  accountTransactions.find? (fun t => t.description == "Opening Balance for " ++ name)

/-- `deleteAccount`: protects the OBE account, refuses an account with any
transaction beyond its own opening-balance transaction, deletes that
transaction first, then bins and removes the account. -/
def deleteAccount (s : DataState) (now : ℕ) (bookId id : String) :
    Except String DataState :=
  if strStarts id "acc_opening_balance_equity_" then
    .error "Cannot delete the system-generated Opening Balance Equity account."
  else
    match s.accounts.find? (fun a => a.id == id && a.bookId == bookId) with
    | none => .error "Account not found."
    | some accountToDelete =>
      let accountTransactions := accountTransactionsFor s bookId id
      let openingBalanceTx := openingBalanceTxOf accountTransactions accountToDelete.name
      if accountTransactions.length > (if openingBalanceTx.isSome then 1 else 0) then
        .error "Cannot delete account with existing transactions. Only accounts with just an opening balance can be auto-cleaned."
      else
        match (match openingBalanceTx with
          | some tx => deleteTransaction s now bookId tx.id
          | none => .ok s) with
        | .error e => .error e
        | .ok s1 =>
          let s2 := addToRecycleBin s1 now [(BinEntity.account accountToDelete, "account")]
          .ok { s2 with accounts :=
            s.accounts.filter (fun a => !(a.id == id && a.bookId == bookId)) }

/-! ### Notes (`src/lib/data.ts` lines 556-592) -/

/-- `addNote`: unshifts a new note. -/
def addNote (s : DataState) (now : ℕ) (bookId text : String) : DataState × Note :=
  let n : Note :=
    { id := "note_" ++ natString now, bookId := bookId, text := text,
      isCompleted := false, createdAt := now }
  ({ s with notes := n :: s.notes }, n)

/-- `Partial<Omit<Note, 'id' | 'bookId'>>`. -/
structure NotePatch where
  text : Option String := none
  isCompleted : Option Bool := none
deriving DecidableEq, Repr

/-- `updateNote`: patches the first note matching `(id, bookId)`. -/
def updateNote (s : DataState) (bookId id : String) (d : NotePatch) :
    Except String (DataState × Note) :=
  match updateFirst (fun n => n.id == id && n.bookId == bookId)
      (fun n =>
        { n with
          text := d.text.getD n.text
          isCompleted := d.isCompleted.getD n.isCompleted }) s.notes with
  | none => .error "Note not found."
  | some (ns, n) => .ok ({ s with notes := ns }, n)

/-- `deleteNote`: filters the note out; never fails, never touches the bin. -/
def deleteNote (s : DataState) (bookId id : String) : DataState :=
  { s with notes := s.notes.filter (fun n => n.id != id || n.bookId != bookId) }

/-! ### Supabase-variant seeding and cross-book transfer
(`src/lib/data.ts` lines 670-715 and 1268-1336), run over the same
list-backed stores. -/

/-- `DEFAULT_CATEGORY_SEEDS`. -/
def defaultCategorySeeds : List Category :=
  [ { id := "cat_equity_book_default", name := "Equity", bookId := "book_default" },
    { id := "cat_cash_default", name := "Cash", bookId := "book_default" },
    { id := "cat_capital_default", name := "Capital", bookId := "book_default" },
    { id := "cat_party_default", name := "Parties", bookId := "book_default" },
    { id := "cat_expense_default", name := "Expenses", bookId := "book_default" } ]

/-- `ensureDefaultBook` (supabase variant): on empty book storage seeds the
`book_default` book, its default categories and its OBE account. -/
def ensureDefaultBook (s : DataState) : DataState :=
  if s.books.isEmpty then
    { s with
      books := s.books ++ [{ id := "book_default", name := "CASHBOOK" }],
      categories := s.categories ++ defaultCategorySeeds,
      accounts := s.accounts ++
        [{ id := "acc_opening_balance_equity_book_default",
           name := "Opening Balance Equity",
           categoryId := "cat_equity_book_default", bookId := "book_default" }] }
  else s

/-- The target-account resolution step of `transferBalanceBetweenBooks`:
an explicit `targetAccountId` must exist; otherwise the source category name
is matched (or created) in the target book and a non-OBE account of the
source account's name is matched (or created) under it. -/
def resolveTargetAccount (s : DataState) (now : ℕ)
    (targetBookId sourceAccountName : String) (sourceCategory : Category) :
    Option String → Except String (DataState × Account)
  | some tid =>
    match (getAccounts s targetBookId).find? (fun a => a.id == tid) with
    | none => Except.error "Target account not found."
    | some found => Except.ok (s, found)
  | none =>
    let pTgtCats := getCategories s targetBookId
    match (match pTgtCats.2.find? (fun c => lower c.name == lower sourceCategory.name) with
      | some c => Except.ok (pTgtCats.1, c)
      | none => addCategory pTgtCats.1 now targetBookId sourceCategory.name) with
    | .error e => .error e
    | .ok catResolved =>
      match (getAccounts catResolved.1 targetBookId).find? (fun a =>
          lower a.name == lower sourceAccountName &&
          !(strStarts a.id "acc_opening_balance_equity_")) with
      | some acc => Except.ok (catResolved.1, acc)
      | none =>
        addAccount catResolved.1 now targetBookId
          { name := sourceAccountName, categoryId := catResolved.2.id }

/-- `transferBalanceBetweenBooks` (lines 1268-1336): reduces the source
account against the source book's OBE account, resolves (or creates) the
target account, and adds the matching transaction in the target book against
its OBE account. -/
def transferBalanceBetweenBooks (s : DataState) (now : ℕ)
    (sourceBookId targetBookId sourceAccountId sourceAccountName sourceCategoryId : String)
    (amount : ℚ) (balanceType : EntryType) (targetAccountId : Option String) :
    Except String DataState :=
  if sourceBookId == targetBookId then
    .error "Source and target book must be different."
  else if amount ≤ 0 then
    .error "Transfer amount must be greater than zero."
  else
    let pBooks := getBooks s now
    let targetBookName :=
      ((pBooks.2.find? (fun b => b.id == targetBookId)).map (fun b => b.name)).getD "Other book"
    let pObe := getOpeningBalanceEquityAccount pBooks.1 sourceBookId
    let s3 := (addTransaction pObe.1 now sourceBookId
      { date := now, description := "Transfer to " ++ targetBookName,
        entries :=
          [ { accountId := sourceAccountId, amount := amount, type := balanceType.inv },
            { accountId := pObe.2.id, amount := amount, type := balanceType } ] }).1
    let pCats := getCategories s3 sourceBookId
    match pCats.2.find? (fun c => c.id == sourceCategoryId) with
    | none => .error "Source category not found."
    | some sourceCategory =>
      match resolveTargetAccount pCats.1 now targetBookId sourceAccountName
          sourceCategory targetAccountId with
      | .error e => .error e
      | .ok resolved =>
        let pTgtObe := getOpeningBalanceEquityAccount resolved.1 targetBookId
        Except.ok (addTransaction pTgtObe.1 now targetBookId
          { date := now, description := "Transfer from another book",
            entries :=
              [ { accountId := resolved.2.id, amount := amount, type := balanceType },
                { accountId := pTgtObe.2.id, amount := amount, type := balanceType.inv } ] }).1

/-! ### Read-side balance projections
(`src/app/accounts/page.tsx`, both page components) -/

/-- `AllAccountsPage` raw balance: over the given (book-filtered)
transactions, `Σ debit entries − Σ credit entries` for the account. -/
def accountBalance (accountId : String) (txns : List Transaction) : ℚ :=
  let accountEntries :=
    (txns.flatMap (fun t => t.entries)).filter (fun e => e.accountId == accountId)
  let totalDebit :=
    (accountEntries.filter (fun e => e.type == EntryType.debit)).foldl
      (fun sum e => sum + e.amount) 0
  let totalCredit :=
    (accountEntries.filter (fun e => e.type == EntryType.credit)).foldl
      (fun sum e => sum + e.amount) 0
  totalDebit - totalCredit

/-- `debitBalanceCategories` from `AccountLedgerPage`. -/
def debitBalanceCategories : List String := ["asset", "expense"]

/-- The keyword heuristic: a category is normally debit when its lowercase
name contains `asset` or `expense`; a missing category is normally credit. -/
def normallyDebit (category : Option Category) : Bool :=
  match category with
  | some c => debitBalanceCategories.any (fun t => strContains (lower c.name) t)
  | none => false

/-- The transactions of the ledger: those containing the account, sorted by
date ascending. -/
def relevantTransactions (accountId : String) (txns : List Transaction) :
    List Transaction :=
  sortBy (fun a b => decide (a.date ≤ b.date))
    (txns.filter (fun t => t.entries.any (fun e => e.accountId == accountId)))

/-- One transaction's contribution to the running balance: the first entry
for the account, added as `debit − credit` for a normally-debit account and
as `credit − debit` otherwise. -/
def ledgerContribution (nd : Bool) (accountId : String) (t : Transaction) : ℚ :=
  match t.entries.find? (fun e => e.accountId == accountId) with
  | some e =>
    let debit := if e.type == EntryType.debit then e.amount else 0
    let credit := if e.type == EntryType.credit then e.amount else 0
    if nd then debit - credit else credit - debit
  | none => 0  -- unreachable: the ledger's transaction list is pre-filtered

/-- A row of the account ledger. -/
structure LedgerRow where
  date : ℕ
  description : String
  debit : ℚ
  credit : ℚ
  balance : ℚ
deriving DecidableEq, Repr

/-- The `map` with the mutable `runningBalance` of `AccountLedgerPage`. -/
def ledgerRows (nd : Bool) (accountId : String) (balance : ℚ) :
    List Transaction → List LedgerRow
  | [] => []
  | t :: ts =>
    let b := balance + ledgerContribution nd accountId t
    let row : LedgerRow :=
      match t.entries.find? (fun e => e.accountId == accountId) with
      | some e =>
        { date := t.date
          description := e.description.getD t.description
          debit := if e.type == EntryType.debit then e.amount else 0
          credit := if e.type == EntryType.credit then e.amount else 0
          balance := b }
      | none =>
        { date := t.date, description := t.description,
          debit := 0, credit := 0, balance := b }
    row :: ledgerRows nd accountId b ts

/-- `AccountLedgerPage`: the full ledger of an account. -/
def accountLedger (account : Account) (categories : List Category)
    (txns : List Transaction) : List LedgerRow :=
  let category := categories.find? (fun c => c.id == account.categoryId)
  ledgerRows (normallyDebit category) account.id 0
    (relevantTransactions account.id txns)

/-- The final running balance of the ledger (0 for an empty ledger). -/
def accountLedgerFinalBalance (account : Account) (categories : List Category)
    (txns : List Transaction) : ℚ :=
  match (accountLedger account categories txns).getLast? with
  | some row => row.balance
  | none => 0

/-! ### The transaction form schema
(`src/components/transactions/AddTransactionForm.tsx`, `formSchema`).
Amounts here are the numeric branch of the zod union; formula strings are
evaluated to numbers by the entry card before validation. -/

/-- An entry as validated by `transactionEntrySchema`. -/
structure FormEntry where
  accountId : String
  type : EntryType
  amount : ℚ
  description : Option String := none
deriving DecidableEq, Repr

/-- `totalDebits` of the balance refinement. -/
def formTotalDebits (entries : List FormEntry) : ℚ :=
  (entries.filter (fun e => e.type == EntryType.debit)).foldl
    (fun sum e => sum + e.amount) 0

/-- `totalCredits` of the balance refinement. -/
def formTotalCredits (entries : List FormEntry) : ℚ :=
  (entries.filter (fun e => e.type == EntryType.credit)).foldl
    (fun sum e => sum + e.amount) 0

/-- `formSchema` acceptance: per-entry checks (account chosen, positive
amount), at least two entries, description rules, and
`|Σ debit − Σ credit| < 0.01`. -/
def formSchemaAccepts (description : String) (useSeparateNarration : Bool)
    (entries : List FormEntry) : Bool :=
  entries.all (fun e => decide (1 ≤ e.accountId.length) && decide (0 < e.amount)) &&
  decide (2 ≤ entries.length) &&
  decide (description.length ≤ 100) &&
  (useSeparateNarration || decide (0 < description.length)) &&
  decide (|formTotalDebits entries - formTotalCredits entries| < 1 / 100)

/-! ### Derived balance notions used by the theorems -/

/-- The signed value of an entry: debits positive, credits negative. -/
def entrySigned (e : TransactionEntry) : ℚ :=
  match e.type with
  | .debit => e.amount
  | .credit => -e.amount

/-- One transaction's signed contribution to an account's raw balance. -/
def txnSigned (accountId : String) (t : Transaction) : ℚ :=
  ((t.entries.filter (fun e => e.accountId == accountId)).map entrySigned).sum

/-- The net signed amount of all entries of a book's transactions: the
book-wide total of `Σ debit − Σ credit`. -/
def bookTotalBalance (s : DataState) (bookId : String) : ℚ :=
  ((s.transactions.filter (fun t => t.bookId == bookId)).map
    (fun t => (t.entries.map entrySigned).sum)).sum

/-- The sign of a balance side: a balance "on the debit side" counts raw
`Σ debit − Σ credit` positively, one "on the credit side" negatively. -/
def typeSign : EntryType → ℚ
  | .debit => 1
  | .credit => -1

/-- The default book is present in the registry. -/
def hasDefaultBook (s : DataState) : Bool :=
  s.books.any (fun b => b.id == "book_default")

/-- One successful call to any state-mutating operation of the data layer
(reads that can write-through, such as `getBooks`, `getCategories` and
`getOpeningBalanceEquityAccount`, included). -/
inductive Step : DataState → DataState → Prop where
  | getBooks (s : DataState) (now : ℕ) : Step s (getBooks s now).1
  | addBook {s : DataState} {now : ℕ} {name : String} {s' : DataState} {b : Book} :
      addBook s now name = .ok (s', b) → Step s s'
  | updateBook {s : DataState} {now : ℕ} {id name : String} {s' : DataState} {b : Book} :
      updateBook s now id name = .ok (s', b) → Step s s'
  | deleteBook {s : DataState} {now : ℕ} {id : String} {s' : DataState} :
      deleteBook s now id = .ok s' → Step s s'
  | getOBE (s : DataState) (bookId : String) :
      Step s (getOpeningBalanceEquityAccount s bookId).1
  | getCategories (s : DataState) (bookId : String) :
      Step s (getCategories s bookId).1
  | addTransaction (s : DataState) (now : ℕ) (bookId : String) (d : TxData) :
      Step s (addTransaction s now bookId d).1
  | updateTransaction {s : DataState} {bookId id : String} {d : TxData}
      {s' : DataState} {t : Transaction} :
      updateTransaction s bookId id d = .ok (s', t) → Step s s'
  | updateTransactionHighlight {s : DataState} {bookId id : String}
      {hl : Option String} {s' : DataState} :
      updateTransactionHighlight s bookId id hl = .ok s' → Step s s'
  | deleteTransaction {s : DataState} {now : ℕ} {bookId id : String} {s' : DataState} :
      deleteTransaction s now bookId id = .ok s' → Step s s'
  | deleteMultipleTransactions {s : DataState} {now : ℕ} {bookId : String}
      {ids : List String} {s' : DataState} :
      deleteMultipleTransactions s now bookId ids = .ok s' → Step s s'
  | addCategory {s : DataState} {now : ℕ} {bookId name : String}
      {s' : DataState} {c : Category} :
      addCategory s now bookId name = .ok (s', c) → Step s s'
  | updateCategory {s : DataState} {bookId id name : String}
      {s' : DataState} {c : Category} :
      updateCategory s bookId id name = .ok (s', c) → Step s s'
  | deleteCategory {s : DataState} {now : ℕ} {bookId id : String} {s' : DataState} :
      deleteCategory s now bookId id = .ok s' → Step s s'
  | addAccount {s : DataState} {now : ℕ} {bookId : String} {d : AccountData}
      {s' : DataState} {a : Account} :
      addAccount s now bookId d = .ok (s', a) → Step s s'
  | updateAccount {s : DataState} {now : ℕ} {bookId accountId : String}
      {d : AccountPatch} {s' : DataState} {a : Account} :
      updateAccount s now bookId accountId d = .ok (s', a) → Step s s'
  | deleteAccount {s : DataState} {now : ℕ} {bookId id : String} {s' : DataState} :
      deleteAccount s now bookId id = .ok s' → Step s s'
  | addNote (s : DataState) (now : ℕ) (bookId text : String) :
      Step s (addNote s now bookId text).1
  | updateNote {s : DataState} {bookId id : String} {d : NotePatch}
      {s' : DataState} {n : Note} :
      updateNote s bookId id d = .ok (s', n) → Step s s'
  | deleteNote (s : DataState) (bookId id : String) : Step s (deleteNote s bookId id)
  | restoreItem {s : DataState} {item : BinItem} {s' : DataState} :
      restoreItem s item = .ok s' → Step s s'
  | deletePermanently (s : DataState) (item : BinItem) :
      Step s (deletePermanently s item)
  | ensureDefaultBook (s : DataState) : Step s (ensureDefaultBook s)
  | transfer {s : DataState} {now : ℕ}
      {sourceBookId targetBookId sourceAccountId sourceAccountName sourceCategoryId : String}
      {amount : ℚ} {balanceType : EntryType} {targetAccountId : Option String}
      {s' : DataState} :
      transferBalanceBetweenBooks s now sourceBookId targetBookId sourceAccountId
        sourceAccountName sourceCategoryId amount balanceType targetAccountId = .ok s' →
      Step s s'

/-- Reachability through any sequence of successful data-layer operations. -/
def Reach : DataState → DataState → Prop := Relation.ReflTransGen Step

/-! ### Concrete instances used by witnesses and counterexamples -/

/-- A store holding one transaction of book `b1`. -/
def oneTxState : DataState :=
  { emptyState with transactions := [⟨"txn_1", 1, "old", [], "b1", none⟩] }

/-- A replacement payload for `oneTxState`'s transaction. -/
def oneTxPatch : TxData :=
  { date := 2, description := "new", entries := [⟨"a1", 3, .debit, none⟩] }

/-- `oneTxState` after `updateTransaction` with `oneTxPatch`. -/
def oneTxState' : DataState :=
  { emptyState with transactions := [⟨"txn_1", 2, "new", [⟨"a1", 3, .debit, none⟩], "b1", none⟩] }

/-- The transaction returned by that update. -/
def oneTxUpdated : Transaction := ⟨"txn_1", 2, "new", [⟨"a1", 3, .debit, none⟩], "b1", none⟩

/-- A balanced two-entry form submission. -/
def balancedFormEntries : List FormEntry :=
  [⟨"a1", .debit, 5, none⟩, ⟨"a2", .credit, 5, none⟩]

/-- An account `Bank` in book `b1` together with its opening-balance
transaction, as left by account creation with opening balance 100 debit. -/
def renameState : DataState :=
  { emptyState with
    books := [⟨"b1", "Book1"⟩]
    accounts := [⟨"acc_1", "Bank", "cat1", "b1", none, none⟩]
    transactions :=
      [⟨"txn_1", 5, "Opening Balance for Bank",
        [⟨"acc_1", 100, .debit, none⟩, ⟨"acc_obe", 100, .credit, none⟩], "b1", none⟩] }

/-- What the rename-only `updateAccount` actually produces on `renameState`:
the opening transaction is gone from the store and sits in the bin. -/
def renameResultState : DataState :=
  { emptyState with
    books := [⟨"b1", "Book1"⟩]
    accounts := [⟨"acc_1", "Bank2", "cat1", "b1", none, none⟩]
    transactions := []
    bin :=
      [⟨.txn ⟨"txn_1", 5, "Opening Balance for Bank",
          [⟨"acc_1", 100, .debit, none⟩, ⟨"acc_obe", 100, .credit, none⟩], "b1", none⟩,
        "transaction", 9⟩] }

/-- A note in book `b1`. -/
def noteState : DataState :=
  { emptyState with notes := [⟨"n1", "b1", "todo", false, 3⟩] }

/-- A one-entry transaction in book `b1`. -/
def demoTx : Transaction := ⟨"t1", 1, "d", [⟨"a1", 5, .debit, none⟩], "b1", none⟩

/-- A store holding only `demoTx`. -/
def txOnlyState : DataState := { emptyState with transactions := [demoTx] }

/-- A store holding one category of book `b1`. -/
def catOnlyState : DataState := { emptyState with categories := [⟨"c1", "Cash", "b1"⟩] }

/-- A store holding one account of book `b1`. -/
def accOnlyState : DataState :=
  { emptyState with accounts := [⟨"a1", "Bank", "c1", "b1", none, none⟩] }

/-- A store holding one deletable book. -/
def bookOnlyState : DataState := { emptyState with books := [⟨"b2", "Side"⟩] }

/-- `txOnlyState` after deleting `demoTx` at time 2. -/
def txDeletedState : DataState :=
  { txOnlyState with
    transactions := []
    bin := [⟨.txn demoTx, "transaction", 2⟩] }

/-- `catOnlyState` after deleting its category at time 2. -/
def catDeletedState : DataState :=
  { catOnlyState with
    categories := []
    bin := [⟨.category ⟨"c1", "Cash", "b1"⟩, "category", 2⟩] }

/-- A book `b1` with a single `Cash` category and no accounts. -/
def bankBookState : DataState :=
  { emptyState with
    books := [⟨"b1", "Book1"⟩]
    categories := [⟨"cat1", "Cash", "b1"⟩] }

/-- `bankBookState` after creating account `Bank` with opening balance 500
debit at time 7: the account, the on-demand Equity category and OBE account,
and the paired opening transaction. -/
def bankCreatedState : DataState :=
  { books := [⟨"b1", "Book1"⟩]
    categories := [⟨"cat1", "Cash", "b1"⟩, ⟨"cat_equity_b1", "Equity", "b1"⟩]
    accounts :=
      [⟨"acc_7", "Bank", "cat1", "b1", none, none⟩,
       ⟨"acc_opening_balance_equity_b1", "Opening Balance Equity",
         "cat_equity_b1", "b1", none, none⟩]
    transactions :=
      [⟨"txn_7", 7, "Opening Balance for Bank",
        [⟨"acc_7", 500, .debit, none⟩,
         ⟨"acc_opening_balance_equity_b1", 500, .credit, none⟩], "b1", none⟩]
    notes := []
    bin := [] }

/-- The account record created for `Bank`. -/
def bankAccount : Account := ⟨"acc_7", "Bank", "cat1", "b1", none, none⟩

/-- The account record created for `Savings` (no opening balance). -/
def savingsAccount : Account := ⟨"acc_7", "Savings", "cat1", "b1", none, none⟩

/-- `bankBookState` after creating `Savings` with no opening balance. -/
def savingsState : DataState := { bankBookState with accounts := [savingsAccount] }

/-- An account whose only transaction is its own opening balance. -/
def obOnlyState : DataState :=
  { emptyState with
    accounts := [⟨"acc_1", "Bank", "cat1", "b1", none, none⟩]
    transactions :=
      [⟨"txn_1", 5, "Opening Balance for Bank",
        [⟨"acc_1", 100, .debit, none⟩, ⟨"acc_obe", 100, .credit, none⟩], "b1", none⟩] }

/-- An account with one ordinary (non-opening) transaction. -/
def busyAccountState : DataState :=
  { emptyState with
    accounts := [⟨"acc_1", "Bank", "cat1", "b1", none, none⟩]
    transactions :=
      [⟨"txn_2", 6, "Rent", [⟨"acc_1", 50, .credit, none⟩], "b1", none⟩] }

/-- A normally-credit category (name without `asset`/`expense`). -/
def capCategory : Category := ⟨"cat1", "Capital", "b1"⟩

/-- An account living in `capCategory`. -/
def ownerAccount : Account := ⟨"a1", "Owner", "cat1", "b1", none, none⟩

/-- A balanced transaction crediting `a1` 100. -/
def creditTx : Transaction :=
  ⟨"t1", 1, "d", [⟨"a1", 100, .credit, none⟩, ⟨"a2", 100, .debit, none⟩], "b1", none⟩

/-- A normally-debit category (`asset` keyword). -/
def assetCategory : Category := ⟨"cat2", "Fixed Assets", "b1"⟩

/-- An account living in `assetCategory`. -/
def truckAccount : Account := ⟨"a1", "Truck", "cat2", "b1", none, none⟩

/-- A two-book store for the cross-book transfer: `Wallet` (`a1`) in book
`b1`, `Bank` (`a2`) in book `b2`. -/
def tState : DataState :=
  { emptyState with
      books := [⟨"b1", "Side"⟩, ⟨"b2", "Main"⟩],
      categories := [⟨"c1", "Cash", "b1"⟩],
      accounts :=
        [⟨"a1", "Wallet", "c1", "b1", none, none⟩,
         ⟨"a2", "Bank", "c2", "b2", none, none⟩] }

/-- Transferring 50 on the debit side from `a1` (book `b1`) to `a2`
(book `b2`). -/
def transferDemo : Except String DataState :=
  transferBalanceBetweenBooks tState 3 "b1" "b2" "a1" "Wallet" "c1" 50 .debit (some "a2")

/-- The successful result state of `transferDemo`. -/
def transferDemoState : DataState :=
  match transferDemo with
  | .ok s => s
  | .error _ => emptyState

/-! ### Lemmas about the list helpers -/

theorem updateFirst_eq_some {α : Type} {p : α → Bool} {f : α → α} {l ys : List α}
    {y : α} (h : updateFirst p f l = some (ys, y)) :
    ∃ x, x ∈ l ∧ p x = true ∧ y = f x ∧ y ∈ ys := by
  induction l generalizing ys with
  | nil => simp [updateFirst] at h
  | cons a as ih =>
    rw [updateFirst] at h
    split at h
    next hp =>
      rw [Option.some.injEq, Prod.mk.injEq] at h
      exact ⟨a, List.mem_cons_self a as, hp, h.2.symm,
        by rw [← h.1, ← h.2]; exact List.mem_cons_self _ _⟩
    next hp =>
      split at h
      next zs z hr =>
        rw [Option.some.injEq, Prod.mk.injEq] at h
        obtain ⟨h1, h2⟩ := h
        subst h2
        obtain ⟨x, hx, hpx, hyx, hyr⟩ := ih hr
        exact ⟨x, List.mem_cons_of_mem a hx, hpx, hyx,
          h1 ▸ List.mem_cons_of_mem a hyr⟩
      next => exact absurd h (by simp)

theorem extractFirst_eq_some {α : Type} {p : α → Bool} {l rest : List α} {x : α}
    (h : extractFirst p l = some (x, rest)) :
    x ∈ l ∧ p x = true ∧ ∀ y ∈ l, y = x ∨ y ∈ rest := by
  induction l generalizing rest with
  | nil => simp [extractFirst] at h
  | cons a as ih =>
    rw [extractFirst] at h
    split at h
    next hp =>
      rw [Option.some.injEq, Prod.mk.injEq] at h
      obtain ⟨h1, h2⟩ := h
      subst h1
      refine ⟨List.mem_cons_self a as, hp, ?_⟩
      intro y hy
      rcases List.mem_cons.1 hy with hy | hy
      · exact Or.inl hy
      · exact Or.inr (h2 ▸ hy)
    next hp =>
      split at h
      next z zs hr =>
        rw [Option.some.injEq, Prod.mk.injEq] at h
        obtain ⟨h1, h2⟩ := h
        subst h1
        obtain ⟨hx, hpx, hcov⟩ := ih hr
        refine ⟨List.mem_cons_of_mem a hx, hpx, ?_⟩
        intro y hy
        rcases List.mem_cons.1 hy with hy | hy
        · exact Or.inr (h2 ▸ (hy ▸ List.mem_cons_self a zs))
        · rcases hcov y hy with hc | hc
          · exact Or.inl hc
          · exact Or.inr (h2 ▸ List.mem_cons_of_mem a hc)
      next => exact absurd h (by simp)

theorem extractFirst_of_mem {α : Type} {p : α → Bool} {l : List α} {x : α}
    (hx : x ∈ l) (hp : p x = true) : ∃ r, extractFirst p l = some r := by
  induction l with
  | nil => cases hx
  | cons a as ih =>
    by_cases hpa : p a
    · exact ⟨(a, as), by simp [extractFirst, hpa]⟩
    · rcases List.mem_cons.1 hx with rfl | hmem
      · exact absurd hp hpa
      · obtain ⟨r, hr⟩ := ih hmem
        exact ⟨(r.1, a :: r.2), by simp [extractFirst, hpa, hr]⟩

theorem foldl_add_eq {α : Type} (g : α → ℚ) (l : List α) (a : ℚ) :
    l.foldl (fun sum e => sum + g e) a = a + (l.map g).sum := by
  induction l generalizing a with
  | nil => simp
  | cons x xs ih => simp only [List.foldl_cons, List.map_cons, List.sum_cons, ih]; ring

/-! ### Claim C1 -/

/-- C1, counterexample: the data-layer `addTransaction` performs no
validation.  Called with a single entry whose amount is −5 (fewer than 2
entries and a non-positive amount), it succeeds and persists the
transaction, so the stored transaction set changes — refuting "the operation
fails with ValidationError and no transaction is persisted". -/
theorem addTransaction_persists_invalid_entries :
    ([⟨"a1", -5, EntryType.debit, none⟩] : List TransactionEntry).length < 2 ∧
    ((-5 : ℚ) ≤ 0) ∧
    (addTransaction emptyState 0 "b1"
      { date := 0, description := "bad",
        entries := [⟨"a1", -5, .debit, none⟩] }).1.transactions.length = 1 ∧
    emptyState.transactions.length = 0 := by
  decide

/-- C1, amended: the entry invariants (at least two entries, positive
amounts, `|Σ debit − Σ credit| < 0.01`) are enforced only by the client form
schema; the data-layer create and update themselves persist whatever entries
list they are given. -/
theorem transaction_validation_only_in_form :
    (∀ (s : DataState) (now : ℕ) (bookId : String) (d : TxData),
      (addTransaction s now bookId d).1.transactions =
        (addTransaction s now bookId d).2 :: s.transactions ∧
      (addTransaction s now bookId d).2.entries = d.entries) ∧
    (∀ (s : DataState) (bookId id : String) (d : TxData) (s' : DataState)
        (t : Transaction),
      updateTransaction s bookId id d = .ok (s', t) →
      t.entries = d.entries ∧ t ∈ s'.transactions) ∧
    (∀ (description : String) (sep : Bool) (entries : List FormEntry),
      formSchemaAccepts description sep entries = true →
      2 ≤ entries.length ∧ (∀ e ∈ entries, 0 < e.amount) ∧
      |formTotalDebits entries - formTotalCredits entries| < 1 / 100) := by
  refine ⟨fun s now bookId d => ⟨rfl, rfl⟩, ?_, ?_⟩
  · intro s bookId id d s' t h
    rw [updateTransaction] at h
    split at h
    next => exact absurd h (by simp)
    next ts t0 hu =>
      rw [Except.ok.injEq, Prod.mk.injEq] at h
      obtain ⟨h1, h2⟩ := h
      obtain ⟨x, hx, hpx, ht, hmem⟩ := updateFirst_eq_some hu
      subst h2
      refine ⟨by rw [ht], ?_⟩
      rw [← h1]
      exact hmem
  · intro description sep entries h
    rw [formSchemaAccepts] at h
    simp only [Bool.and_eq_true, List.all_eq_true, decide_eq_true_eq,
      Bool.or_eq_true] at h
    obtain ⟨⟨⟨⟨hall, hlen⟩, hdesc⟩, hnarr⟩, hbal⟩ := h
    exact ⟨hlen, fun e he => (hall e he).2, hbal⟩

/-- Witness for `transaction_validation_only_in_form` at concrete inputs. -/
theorem transaction_validation_only_in_form_witness :
    ((addTransaction emptyState 0 "b1" oneTxPatch).1.transactions =
      (addTransaction emptyState 0 "b1" oneTxPatch).2 :: emptyState.transactions ∧
     (addTransaction emptyState 0 "b1" oneTxPatch).2.entries = oneTxPatch.entries) ∧
    (oneTxUpdated.entries = oneTxPatch.entries ∧
      oneTxUpdated ∈ oneTxState'.transactions) ∧
    (2 ≤ balancedFormEntries.length ∧
     (∀ e ∈ balancedFormEntries, 0 < e.amount) ∧
     |formTotalDebits balancedFormEntries - formTotalCredits balancedFormEntries| < 1 / 100) :=
  ⟨transaction_validation_only_in_form.1 emptyState 0 "b1" oneTxPatch,
   transaction_validation_only_in_form.2.1 oneTxState "b1" "txn_1" oneTxPatch
     oneTxState' oneTxUpdated (by decide),
   transaction_validation_only_in_form.2.2 "d" false balancedFormEntries
     (by simp [formSchemaAccepts, balancedFormEntries, formTotalDebits,
           formTotalCredits]
         decide)⟩

/-! ### Claim C7 -/

/-- C7: the claim matches the source's own `Case 4` comment ("Name change
only, no balance change, but OB exists": description-only update), but a
rename-only `updateAccount` call carries no `openingBalance` key, so
`!newBalance` makes `Case 2` fire first and the opening-balance transaction
is deleted instead.  Evaluated at the failing input: account `Bank` with its
opening transaction, updated with only a new name — the transaction store
ends empty and the transaction is in the recycle bin. -/
theorem renameOnly_update_deletes_opening_transaction :
    updateAccount renameState 9 "b1" "acc_1" { name := some "Bank2" } =
      .ok (renameResultState, ⟨"acc_1", "Bank2", "cat1", "b1", none, none⟩) ∧
    renameState.transactions.length = 1 ∧
    renameResultState.transactions = [] ∧
    renameResultState.bin.map (fun i => i.typ) = ["transaction"] := by
  decide

/-! ### Claim C10 -/

/-- C10: `deleteNote` is a filter that never fails — with no matching note it
is a silent no-op leaving the note store unchanged — whereas the transaction,
account, category and book deletes fail with a not-found error when the
target does not exist. -/
theorem deleteNote_noop_vs_delete_notfound :
    (∀ (s : DataState) (bookId id : String),
      deleteNote s bookId id =
        { s with notes := s.notes.filter (fun n => n.id != id || n.bookId != bookId) }) ∧
    (∀ (s : DataState) (bookId id : String),
      (∀ n ∈ s.notes, ¬(n.id = id ∧ n.bookId = bookId)) →
      deleteNote s bookId id = s) ∧
    (∀ (s : DataState) (now : ℕ) (bookId id : String),
      extractFirst (fun t => t.id == id && t.bookId == bookId) s.transactions = none →
      deleteTransaction s now bookId id = .error "Transaction not found.") ∧
    (∀ (s : DataState) (now : ℕ) (bookId id : String),
      strStarts id "acc_opening_balance_equity_" = false →
      s.accounts.find? (fun a => a.id == id && a.bookId == bookId) = none →
      deleteAccount s now bookId id = .error "Account not found.") ∧
    (∀ (s : DataState) (now : ℕ) (bookId id : String),
      strStarts id "cat_equity_" = false →
      (getAccounts s bookId).any (fun a => a.categoryId == id) = false →
      s.categories.find? (fun c => c.id == id && c.bookId == bookId) = none →
      deleteCategory s now bookId id = .error "Category not found in this book.") ∧
    (∀ (s : DataState) (now : ℕ) (id : String),
      id ≠ "book_default" →
      (getBooks s now).2.find? (fun b => b.id == id) = none →
      deleteBook s now id = .error "Book not found.") := by
  refine ⟨fun s bookId id => rfl, ?_, ?_, ?_, ?_, ?_⟩
  · intro s bookId id h
    have hf : s.notes.filter (fun n => n.id != id || n.bookId != bookId) = s.notes := by
      apply List.filter_eq_self.mpr
      intro n hn
      have := h n hn
      simp only [Bool.or_eq_true, bne_iff_ne, ne_eq]
      tauto
    rw [deleteNote, hf]
  · intro s now bookId id h
    rw [deleteTransaction, h]
  · intro s now bookId id h1 h2
    rw [deleteAccount]
    simp only [h1, Bool.false_eq_true, if_false, h2]
  · intro s now bookId id h1 h2 h3
    rw [deleteCategory]
    simp only [h1, h2, h3, Bool.false_eq_true, if_false]
  · intro s now id h1 h2
    rw [deleteBook]
    simp only [beq_iff_eq, h1, if_false, h2]

/-- Witness for `deleteNote_noop_vs_delete_notfound` at concrete inputs. -/
theorem deleteNote_noop_vs_delete_notfound_witness :
    deleteNote emptyState "b1" "n1" = emptyState ∧
    deleteTransaction emptyState 0 "b1" "t1" = .error "Transaction not found." ∧
    deleteAccount emptyState 0 "b1" "a1" = .error "Account not found." ∧
    deleteCategory emptyState 0 "b1" "c1" = .error "Category not found in this book." ∧
    deleteBook emptyState 0 "b1" = .error "Book not found." :=
  ⟨deleteNote_noop_vs_delete_notfound.2.1 emptyState "b1" "n1" (by simp [emptyState]),
   deleteNote_noop_vs_delete_notfound.2.2.1 emptyState 0 "b1" "t1" rfl,
   deleteNote_noop_vs_delete_notfound.2.2.2.1 emptyState 0 "b1" "a1" (by decide) rfl,
   deleteNote_noop_vs_delete_notfound.2.2.2.2.1 emptyState 0 "b1" "c1"
     (by decide) (by decide) rfl,
   deleteNote_noop_vs_delete_notfound.2.2.2.2.2 emptyState 0 "b1"
     (by decide) (by decide)⟩

/-! ### Claim C9 -/

/-- C9, counterexample: `deleteNote` removes a note from primary storage and
creates no recycle-bin item, refuting "no entity is ever removed from
primary storage by a delete operation without a corresponding RecycleBinItem
being created". -/
theorem deleteNote_bypasses_recycle_bin :
    noteState.notes.length = 1 ∧
    (deleteNote noteState "b1" "n1").notes = [] ∧
    (deleteNote noteState "b1" "n1").bin = [] := by
  decide

/-- C9, amended: deletes of transactions, categories, accounts and books
always put a snapshot of every removed entity into the recycle bin before it
leaves primary storage; `deleteNote` is the exception — it removes the note
without creating a bin item. -/
theorem destructive_deletes_route_through_bin :
    (∀ (s : DataState) (now : ℕ) (bookId id : String) (s' : DataState),
      deleteTransaction s now bookId id = .ok s' →
      ∃ t rest,
        extractFirst (fun u => u.id == id && u.bookId == bookId) s.transactions =
          some (t, rest) ∧
        s'.transactions = rest ∧
        s'.bin = ⟨.txn t, "transaction", now⟩ :: s.bin) ∧
    (∀ (s : DataState) (now : ℕ) (bookId id : String) (s' : DataState),
      deleteCategory s now bookId id = .ok s' →
      ∃ c, s.categories.find? (fun c => c.id == id && c.bookId == bookId) = some c ∧
        s'.categories = s.categories.filter (fun c => c.id != id) ∧
        s'.bin = ⟨.category c, "category", now⟩ :: s.bin) ∧
    (∀ (s : DataState) (now : ℕ) (bookId id : String) (s' : DataState),
      deleteAccount s now bookId id = .ok s' →
      ∃ a, s.accounts.find? (fun a => a.id == id && a.bookId == bookId) = some a ∧
        s'.accounts = s.accounts.filter (fun a => !(a.id == id && a.bookId == bookId)) ∧
        BinEntity.account a ∈ s'.bin.map (fun i => i.entity) ∧
        (∀ t ∈ s.transactions, t ∉ s'.transactions →
          BinEntity.txn t ∈ s'.bin.map (fun i => i.entity))) ∧
    (∀ (s : DataState) (now : ℕ) (id : String) (s' : DataState),
      deleteBook s now id = .ok s' →
      ∃ b,
        s'.bin =
          (⟨BinEntity.book b, "book", now⟩ ::
            (((getBooks s now).1.transactions.filter (fun t => t.bookId == id)).map
                (fun t => ⟨BinEntity.txn t, "transaction", now⟩) ++
             ((getBooks s now).1.accounts.filter (fun a => a.bookId == id)).map
                (fun a => ⟨BinEntity.account a, "account", now⟩) ++
             ((getBooks s now).1.categories.filter (fun c => c.bookId == id)).map
                (fun c => ⟨BinEntity.category c, "category", now⟩))) ++
          (getBooks s now).1.bin ∧
        s'.transactions =
          (getBooks s now).1.transactions.filter (fun t => t.bookId != id) ∧
        s'.accounts = (getBooks s now).1.accounts.filter (fun a => a.bookId != id) ∧
        s'.categories =
          (getBooks s now).1.categories.filter (fun c => c.bookId != id)) := by
  refine ⟨?_, ?_, ?_, ?_⟩
  · intro s now bookId id s' h
    rw [deleteTransaction] at h
    split at h
    next => exact absurd h (by simp)
    next t rest he =>
      rw [Except.ok.injEq] at h
      exact ⟨t, rest, he, by rw [← h], by rw [← h]; rfl⟩
  · intro s now bookId id s' h
    simp only [deleteCategory] at h
    split at h
    next => exact absurd h (by simp)
    next =>
      split at h
      next => exact absurd h (by simp)
      next =>
        split at h
        next => exact absurd h (by simp)
        next c hc =>
          rw [Except.ok.injEq] at h
          exact ⟨c, hc, by rw [← h], by rw [← h]; rfl⟩
  · intro s now bookId id s' h
    simp only [deleteAccount] at h
    split at h
    next => exact absurd h (by simp)
    next =>
      split at h
      next => exact absurd h (by simp)
      next a ha =>
        cases hob : openingBalanceTxOf (accountTransactionsFor s bookId id) a.name with
        | some tx =>
          rw [hob] at h
          simp only [Option.isSome_some, eq_self_iff_true, if_true] at h
          split at h
          next => exact absurd h (by simp)
          next hlen =>
            cases hdel : deleteTransaction s now bookId tx.id with
            | error e => rw [hdel] at h; exact absurd h (by simp)
            | ok s1 =>
              rw [hdel] at h
              rw [Except.ok.injEq] at h
              rw [deleteTransaction] at hdel
              split at hdel
              next => exact absurd hdel (by simp)
              next t0 rest he =>
                rw [Except.ok.injEq] at hdel
                subst hdel
                subst h
                refine ⟨a, ha, rfl, by simp [addToRecycleBin], ?_⟩
                intro t ht ht'
                simp only [addToRecycleBin, List.map_cons, List.mem_cons,
                  List.map_map] at ht' ⊢
                rcases extractFirst_eq_some he with ⟨ht0, hpt0, hcov⟩
                rcases hcov t ht with rfl | hmem
                · simp
                · exact absurd hmem (by simpa using ht')
        | none =>
          rw [hob] at h
          simp only [Option.isSome_none, Bool.false_eq_true, if_false] at h
          split at h
          next => exact absurd h (by simp)
          next hlen =>
            rw [Except.ok.injEq] at h
            subst h
            refine ⟨a, ha, rfl, by simp [addToRecycleBin], ?_⟩
            intro t ht ht'
            exact absurd ht ht'
  · intro s now id s' h
    simp only [deleteBook] at h
    split at h
    next => exact absurd h (by simp)
    next =>
      split at h
      next => exact absurd h (by simp)
      next b hb =>
        rw [Except.ok.injEq] at h
        subst h
        refine ⟨b, ?_, rfl, rfl, rfl⟩
        simp only [addToRecycleBin, List.map_cons, List.map_append, List.map_map]
        rfl

/-- Witness for `destructive_deletes_route_through_bin` at concrete inputs. -/
theorem destructive_deletes_route_through_bin_witness :
    (∃ t rest,
      extractFirst (fun u => u.id == "t1" && u.bookId == "b1") txOnlyState.transactions =
        some (t, rest) ∧
      txDeletedState.transactions = rest ∧
      txDeletedState.bin = ⟨.txn t, "transaction", 2⟩ :: txOnlyState.bin) ∧
    (∃ c, catOnlyState.categories.find? (fun c => c.id == "c1" && c.bookId == "b1") = some c ∧
      catDeletedState.categories = catOnlyState.categories.filter (fun c => c.id != "c1") ∧
      catDeletedState.bin = ⟨.category c, "category", 2⟩ :: catOnlyState.bin) := by
  constructor
  · exact destructive_deletes_route_through_bin.1 txOnlyState 2 "b1" "t1"
      txDeletedState (by decide)
  · exact destructive_deletes_route_through_bin.2.1 catOnlyState 2 "b1" "c1"
      catDeletedState (by decide)

/-! ### Claim C8 -/

/-- C8: deleting a transaction places a `type = 'transaction'` snapshot with
a `deletedAt` stamp in the recycle bin; restoring that item puts the
transaction (minus the bin metadata) back so it appears in
`getTransactions` for the book, and removes every matching entry from the
bin; restoring an item with an unrecognized type tag fails. -/
theorem deleteTransaction_restore_roundtrip :
    (∀ (s : DataState) (now : ℕ) (bookId : String) (t : Transaction)
        (rest : List Transaction),
      extractFirst (fun u => u.id == t.id && u.bookId == bookId) s.transactions =
        some (t, rest) →
      ∃ s1 s2,
        deleteTransaction s now bookId t.id = .ok s1 ∧
        s1.bin = ⟨.txn t, "transaction", now⟩ :: s.bin ∧
        restoreItem s1 ⟨.txn t, "transaction", now⟩ = .ok s2 ∧
        t ∈ getTransactions s2 bookId ∧
        ∀ i ∈ s2.bin, ¬(i.entity.entityId = t.id ∧ i.typ = "transaction")) ∧
    (∀ (s : DataState) (item : BinItem),
      item.typ ≠ "account" → item.typ ≠ "transaction" →
      item.typ ≠ "category" → item.typ ≠ "book" →
      restoreItem s item = .error ("Unknown item type for restore: " ++ item.typ)) := by
  constructor
  · intro s now bookId t rest he
    obtain ⟨hmem, hp, _⟩ := extractFirst_eq_some he
    rw [Bool.and_eq_true, beq_iff_eq, beq_iff_eq] at hp
    refine ⟨_, _, by rw [deleteTransaction, he], rfl, rfl, ?_, ?_⟩
    · rw [getTransactions, mem_sortBy, List.mem_filter]
      constructor
      · exact List.mem_append_right _ (List.mem_cons_self t [])
      · rw [beq_iff_eq]; exact hp.2
    · intro i hi
      simp only [restoreItem, removeBinMatches] at hi
      rw [List.mem_filter] at hi
      have := hi.2
      simp only [Bool.or_eq_true, bne_iff_ne, ne_eq, BinEntity.entityId] at this
      tauto
  · intro s item h1 h2 h3 h4
    obtain ⟨ent, typ, dAt⟩ := item
    simp only at h1 h2 h3 h4
    rw [restoreItem.eq_def]
    split
    all_goals first
      | rfl
      | (exfalso; simp_all)

/-- Witness for `deleteTransaction_restore_roundtrip` at concrete inputs. -/
theorem deleteTransaction_restore_roundtrip_witness :
    (∃ s1 s2,
      deleteTransaction txOnlyState 2 "b1" demoTx.id = .ok s1 ∧
      s1.bin = ⟨.txn demoTx, "transaction", 2⟩ :: txOnlyState.bin ∧
      restoreItem s1 ⟨.txn demoTx, "transaction", 2⟩ = .ok s2 ∧
      demoTx ∈ getTransactions s2 "b1" ∧
      ∀ i ∈ s2.bin, ¬(i.entity.entityId = demoTx.id ∧ i.typ = "transaction")) ∧
    restoreItem emptyState ⟨.txn demoTx, "note", 7⟩ =
      .error ("Unknown item type for restore: " ++ "note") :=
  ⟨deleteTransaction_restore_roundtrip.1 txOnlyState 2 "b1" demoTx [] (by decide),
   deleteTransaction_restore_roundtrip.2 emptyState ⟨.txn demoTx, "note", 7⟩
     (by decide) (by decide) (by decide) (by decide)⟩

/-! ### Opening-balance-equity helper lemmas -/

theorem getOBE_snd_id (s : DataState) (bookId : String) :
    (getOpeningBalanceEquityAccount s bookId).2.id =
      "acc_opening_balance_equity_" ++ bookId := by
  rw [getOpeningBalanceEquityAccount]
  split
  next obe hf =>
    have := List.find?_some hf
    rwa [beq_iff_eq] at this
  next =>
    split
    next => rfl
    next => rfl

theorem getOBE_transactions (s : DataState) (bookId : String) :
    (getOpeningBalanceEquityAccount s bookId).1.transactions = s.transactions := by
  rw [getOpeningBalanceEquityAccount]
  split
  next => rfl
  next => split <;> rfl

theorem getOBE_accounts_mono (s : DataState) (bookId : String) {a : Account}
    (h : a ∈ s.accounts) : a ∈ (getOpeningBalanceEquityAccount s bookId).1.accounts := by
  rw [getOpeningBalanceEquityAccount]
  split
  next => exact h
  next => split <;> exact List.mem_append_left _ h

/-! ### Claim C3 -/

/-- C3: creating an account with a positive opening balance `B` and type `T`
creates the account and exactly one paired transaction with entries
`[{account, B, T}, {OBE account, B, inverse of T}]`; creating an account with
no opening balance (or balance 0) creates the account and no transaction. -/
theorem addAccount_opening_balance_pairing :
    (∀ (s : DataState) (now : ℕ) (bookId name catId : String) (B : ℚ)
        (T : EntryType) (s' : DataState) (acc : Account),
      0 < B →
      addAccount s now bookId
        { name := name, categoryId := catId,
          openingBalance := some B, openingBalanceType := some T } = .ok (s', acc) →
      acc.name = name ∧ acc ∈ s'.accounts ∧
      s'.transactions =
        { id := "txn_" ++ natString now, date := now,
          description := "Opening Balance for " ++ name,
          entries :=
            [⟨acc.id, B, T, none⟩,
             ⟨"acc_opening_balance_equity_" ++ bookId, B, T.inv, none⟩],
          bookId := bookId, highlight := none } :: s.transactions) ∧
    (∀ (s : DataState) (now : ℕ) (bookId : String) (d : AccountData)
        (s' : DataState) (acc : Account),
      (d.openingBalance = none ∨ d.openingBalance = some 0) →
      addAccount s now bookId d = .ok (s', acc) →
      s'.transactions = s.transactions ∧ s'.accounts = s.accounts ++ [acc]) := by
  constructor
  · intro s now bookId name catId B T s' acc hB h
    simp only [addAccount] at h
    split at h
    next => exact absurd h (by simp)
    next =>
      rw [Except.ok.injEq, Prod.mk.injEq] at h
      obtain ⟨h1, h2⟩ := h
      subst h2
      subst h1
      refine ⟨rfl, ?_, ?_⟩
      · exact getOBE_accounts_mono _ bookId
          (List.mem_append_right _ (List.mem_cons_self _ _))
      · rw [addTransaction]
        simp only [getOBE_transactions]
        rw [getOBE_snd_id]
        rfl
  · intro s now bookId d s' acc hz h
    simp only [addAccount] at h
    split at h
    next => exact absurd h (by simp)
    next =>
      rcases hz with hz | hz
      · rw [hz] at h
        rw [Except.ok.injEq, Prod.mk.injEq] at h
        obtain ⟨h1, h2⟩ := h
        subst h1
        exact ⟨rfl, by rw [← h2]⟩
      · rw [hz] at h
        split at h
        next ob hob =>
          rw [Option.some.injEq] at hob
          subst hob
          split at h
          next hpos => exact absurd hpos (by norm_num)
          next =>
            rw [Except.ok.injEq, Prod.mk.injEq] at h
            obtain ⟨h1, h2⟩ := h
            subst h1
            exact ⟨rfl, by rw [← h2]⟩
        next hnone => simp at hnone

/-- Witness for `addAccount_opening_balance_pairing` at concrete inputs. -/
theorem addAccount_opening_balance_pairing_witness :
    (bankAccount.name = "Bank" ∧ bankAccount ∈ bankCreatedState.accounts ∧
      bankCreatedState.transactions =
        { id := "txn_" ++ natString 7, date := 7,
          description := "Opening Balance for " ++ "Bank",
          entries :=
            [⟨bankAccount.id, 500, .debit, none⟩,
             ⟨"acc_opening_balance_equity_" ++ "b1", 500, EntryType.debit.inv, none⟩],
          bookId := "b1", highlight := none } :: bankBookState.transactions) ∧
    (savingsState.transactions = bankBookState.transactions ∧
      savingsState.accounts = bankBookState.accounts ++ [savingsAccount]) := by
  constructor
  · exact addAccount_opening_balance_pairing.1 bankBookState 7 "b1" "Bank" "cat1"
      500 .debit bankCreatedState bankAccount (by norm_num) (by decide)
  · exact addAccount_opening_balance_pairing.2 bankBookState 7 "b1"
      { name := "Savings", categoryId := "cat1" } savingsState savingsAccount
      (Or.inl rfl) (by decide)

/-! ### Claim C4 -/

/-- C4: deleting the system OBE account (the `acc_opening_balance_equity_`
prefix) always fails; deleting an account that appears in any transaction
other than its own opening-balance transaction (matched by description
`Opening Balance for <name>`) fails with the invariant error; otherwise the
delete succeeds, first deleting the opening-balance transaction if one
exists (snapshotting it), then binning and removing the account. -/
theorem deleteAccount_guards_and_cleanup :
    (∀ (s : DataState) (now : ℕ) (bookId id : String),
      strStarts id "acc_opening_balance_equity_" = true →
      deleteAccount s now bookId id =
        .error "Cannot delete the system-generated Opening Balance Equity account.") ∧
    (∀ (s : DataState) (now : ℕ) (bookId id : String) (acc : Account),
      strStarts id "acc_opening_balance_equity_" = false →
      s.accounts.find? (fun a => a.id == id && a.bookId == bookId) = some acc →
      (if (openingBalanceTxOf (accountTransactionsFor s bookId id) acc.name).isSome
        then 1 else 0) < (accountTransactionsFor s bookId id).length →
      deleteAccount s now bookId id =
        .error "Cannot delete account with existing transactions. Only accounts with just an opening balance can be auto-cleaned.") ∧
    (∀ (s : DataState) (now : ℕ) (bookId id : String) (acc : Account),
      strStarts id "acc_opening_balance_equity_" = false →
      s.accounts.find? (fun a => a.id == id && a.bookId == bookId) = some acc →
      (accountTransactionsFor s bookId id).length ≤
        (if (openingBalanceTxOf (accountTransactionsFor s bookId id) acc.name).isSome
          then 1 else 0) →
      ∃ s', deleteAccount s now bookId id = .ok s' ∧
        s'.accounts = s.accounts.filter (fun a => !(a.id == id && a.bookId == bookId)) ∧
        (openingBalanceTxOf (accountTransactionsFor s bookId id) acc.name = none →
          s'.transactions = s.transactions ∧
          s'.bin = ⟨.account acc, "account", now⟩ :: s.bin) ∧
        (∀ tx, openingBalanceTxOf (accountTransactionsFor s bookId id) acc.name = some tx →
          ∃ t0 rest,
            extractFirst (fun u => u.id == tx.id && u.bookId == bookId) s.transactions =
              some (t0, rest) ∧
            s'.transactions = rest ∧
            s'.bin = ⟨.account acc, "account", now⟩ ::
              ⟨.txn t0, "transaction", now⟩ :: s.bin)) := by
  refine ⟨?_, ?_, ?_⟩
  · intro s now bookId id h
    rw [deleteAccount, if_pos h]
  · intro s now bookId id acc h1 h2 h3
    simp only [deleteAccount, h1, Bool.false_eq_true, if_false, h2]
    rw [if_pos h3]
  · intro s now bookId id acc h1 h2 h3
    cases hob : openingBalanceTxOf (accountTransactionsFor s bookId id) acc.name with
    | none =>
      have hng : ¬(0 < (accountTransactionsFor s bookId id).length) := by
        rw [hob] at h3
        exact not_lt.mpr (by simpa using h3)
      refine ⟨{ addToRecycleBin s now [(BinEntity.account acc, "account")] with
                accounts :=
                  s.accounts.filter (fun a => !(a.id == id && a.bookId == bookId)) },
              ?_, rfl, fun _ => ⟨rfl, rfl⟩, fun tx htx => ?_⟩
      · simp only [deleteAccount, h1, Bool.false_eq_true, if_false, h2, hob,
          Option.isSome_none]
        rw [if_neg (by simpa using hng)]
      · exact absurd htx (by simp)
    | some tx =>
      have htxmem : tx ∈ accountTransactionsFor s bookId id := by
        rw [openingBalanceTxOf] at hob
        exact List.mem_of_find?_eq_some hob
      have hbook : (tx.bookId == bookId) = true := by
        rw [accountTransactionsFor] at htxmem
        exact ((Bool.and_eq_true ..).mp (List.mem_filter.mp htxmem).2).1
      have hmem : tx ∈ s.transactions := by
        rw [accountTransactionsFor] at htxmem
        exact (List.mem_filter.mp htxmem).1
      have hptx : (tx.id == tx.id && tx.bookId == bookId) = true := by
        simp only [beq_self_eq_true, Bool.true_and]
        exact hbook
      obtain ⟨⟨t0, rest⟩, hr⟩ :=
        extractFirst_of_mem (p := fun u => u.id == tx.id && u.bookId == bookId)
          hmem hptx
      have hdel : deleteTransaction s now bookId tx.id =
          .ok { addToRecycleBin s now [(BinEntity.txn t0, "transaction")] with
                transactions := rest } := by
        rw [deleteTransaction, hr]
      refine ⟨{ addToRecycleBin
                  { addToRecycleBin s now [(BinEntity.txn t0, "transaction")] with
                    transactions := rest } now [(BinEntity.account acc, "account")] with
                accounts :=
                  s.accounts.filter (fun a => !(a.id == id && a.bookId == bookId)) },
              ?_, rfl, fun hnone => ?_, fun tx' htx' => ?_⟩
      · simp only [deleteAccount, h1, Bool.false_eq_true, if_false, h2, hob,
          Option.isSome_some]
        rw [if_neg (by simpa [hob] using not_lt.mpr h3), hdel]
      · exact absurd hnone (by simp)
      · rw [Option.some.injEq] at htx'
        subst htx'
        exact ⟨t0, rest, hr, rfl, rfl⟩

/-- Witness for `deleteAccount_guards_and_cleanup` at concrete inputs. -/
theorem deleteAccount_guards_and_cleanup_witness :
    deleteAccount emptyState 0 "b1" "acc_opening_balance_equity_b1" =
      .error "Cannot delete the system-generated Opening Balance Equity account." ∧
    deleteAccount busyAccountState 0 "b1" "acc_1" =
      .error "Cannot delete account with existing transactions. Only accounts with just an opening balance can be auto-cleaned." ∧
    ∃ s', deleteAccount obOnlyState 9 "b1" "acc_1" = .ok s' ∧
      s'.accounts = obOnlyState.accounts.filter
        (fun a => !(a.id == "acc_1" && a.bookId == "b1")) ∧
      (openingBalanceTxOf (accountTransactionsFor obOnlyState "b1" "acc_1")
          (⟨"acc_1", "Bank", "cat1", "b1", none, none⟩ : Account).name = none →
        s'.transactions = obOnlyState.transactions ∧
        s'.bin = ⟨.account ⟨"acc_1", "Bank", "cat1", "b1", none, none⟩,
          "account", 9⟩ :: obOnlyState.bin) ∧
      (∀ tx, openingBalanceTxOf (accountTransactionsFor obOnlyState "b1" "acc_1")
          (⟨"acc_1", "Bank", "cat1", "b1", none, none⟩ : Account).name = some tx →
        ∃ t0 rest,
          extractFirst (fun u => u.id == tx.id && u.bookId == "b1")
            obOnlyState.transactions = some (t0, rest) ∧
          s'.transactions = rest ∧
          s'.bin = ⟨.account ⟨"acc_1", "Bank", "cat1", "b1", none, none⟩, "account", 9⟩ ::
            ⟨.txn t0, "transaction", 9⟩ :: obOnlyState.bin) :=
  ⟨deleteAccount_guards_and_cleanup.1 emptyState 0 "b1"
      "acc_opening_balance_equity_b1" (by decide),
   deleteAccount_guards_and_cleanup.2.1 busyAccountState 0 "b1" "acc_1"
      ⟨"acc_1", "Bank", "cat1", "b1", none, none⟩ (by decide) (by decide) (by decide),
   deleteAccount_guards_and_cleanup.2.2 obOnlyState 9 "b1" "acc_1"
      ⟨"acc_1", "Bank", "cat1", "b1", none, none⟩ (by decide) (by decide) (by decide)⟩

/-! ### Balance and ledger lemmas -/

theorem find?_eq_head_filter {α : Type} (p : α → Bool) (l : List α) :
    l.find? p = (l.filter p).head? := by
  induction l with
  | nil => rfl
  | cons x xs ih =>
    rw [List.find?_cons, List.filter_cons]
    by_cases h : p x
    · rw [if_pos h, h, List.head?_cons]
    · have h' : p x = false := by simpa using h
      rw [if_neg h, h', ih]

theorem signed_split (es : List TransactionEntry) :
    ((es.filter (fun e => e.type == EntryType.debit)).map (fun e => e.amount)).sum -
      ((es.filter (fun e => e.type == EntryType.credit)).map (fun e => e.amount)).sum =
    (es.map entrySigned).sum := by
  induction es with
  | nil => simp
  | cons e es ih =>
    cases he : e.type <;>
      simp [List.filter_cons, he, entrySigned, List.sum_cons, ← ih] <;> ring

theorem accountBalance_eq (accountId : String) (txns : List Transaction) :
    accountBalance accountId txns = (txns.map (txnSigned accountId)).sum := by
  simp only [accountBalance, foldl_add_eq, zero_add, signed_split]
  induction txns with
  | nil => simp
  | cons t ts ih =>
    simp only [List.flatMap_cons, List.filter_append, List.map_append,
      List.sum_append, ih, List.map_cons, List.sum_cons, txnSigned]

theorem sum_map_filter_of_zero {α : Type} (p : α → Bool) (f : α → ℚ)
    (l : List α) (h : ∀ x ∈ l, p x = false → f x = 0) :
    ((l.filter p).map f).sum = (l.map f).sum := by
  induction l with
  | nil => rfl
  | cons x xs ih =>
    by_cases hp : p x
    · simp only [List.filter_cons, hp, if_true, List.map_cons, List.sum_cons]
      rw [ih (fun y hy hpy => h y (List.mem_cons_of_mem x hy) hpy)]
    · have h0 : f x = 0 := h x (List.mem_cons_self x xs) (Bool.not_eq_true _ ▸ by simpa using hp)
      simp only [List.filter_cons, hp, if_false, List.map_cons, List.sum_cons, h0,
        Bool.false_eq_true, zero_add]
      exact ih (fun y hy hpy => h y (List.mem_cons_of_mem x hy) hpy)

theorem txnSigned_eq_zero (accountId : String) (t : Transaction)
    (h : t.entries.any (fun e => e.accountId == accountId) = false) :
    txnSigned accountId t = 0 := by
  rw [txnSigned]
  have hnil : t.entries.filter (fun e => e.accountId == accountId) = [] := by
    rw [List.filter_eq_nil_iff]
    intro e he
    rw [List.any_eq_false] at h
    exact h e he
  rw [hnil]
  rfl

theorem ledgerContribution_of_unique (nd : Bool) (accountId : String)
    (t : Transaction)
    (hany : t.entries.any (fun e => e.accountId == accountId) = true)
    (hlen : (t.entries.filter (fun e => e.accountId == accountId)).length ≤ 1) :
    ledgerContribution nd accountId t =
      if nd then txnSigned accountId t else -txnSigned accountId t := by
  have hne : t.entries.filter (fun e => e.accountId == accountId) ≠ [] := by
    rw [List.any_eq_true] at hany
    obtain ⟨e, he, hpe⟩ := hany
    exact List.ne_nil_of_mem (List.mem_filter.mpr ⟨he, hpe⟩)
  obtain ⟨e, es, hfe⟩ := List.exists_cons_of_ne_nil hne
  have hes : es = [] := by
    rw [hfe, List.length_cons] at hlen
    exact List.length_eq_zero.mp (by omega)
  subst hes
  rw [ledgerContribution, find?_eq_head_filter, hfe]
  rw [txnSigned, hfe]
  simp only [List.head?_cons, List.map_cons, List.map_nil, List.sum_cons,
    List.sum_nil, add_zero]
  cases he : e.type <;> cases nd <;>
    simp [entrySigned, he, sub_zero, zero_sub]

theorem ledgerRows_getLast? (nd : Bool) (accountId : String) :
    ∀ (l : List Transaction) (b : ℚ), l ≠ [] →
      ∃ r, (ledgerRows nd accountId b l).getLast? = some r ∧
        r.balance = b + (l.map (ledgerContribution nd accountId)).sum
  | [], _, hne => absurd rfl hne
  | t :: ts, b, _ => by
    rw [ledgerRows]
    cases ts with
    | nil =>
      refine ⟨_, by rw [ledgerRows]; rfl, ?_⟩
      cases List.find? (fun e => e.accountId == accountId) t.entries <;>
        simp [List.map_cons, List.sum_cons]
    | cons u us =>
      obtain ⟨r, hlast, hbal⟩ := ledgerRows_getLast? nd accountId (u :: us)
        (b + ledgerContribution nd accountId t) (by simp)
      have hcons : ∃ r0 rs0, ledgerRows nd accountId
          (b + ledgerContribution nd accountId t) (u :: us) = r0 :: rs0 :=
        ⟨_, _, by rw [ledgerRows]⟩
      obtain ⟨r0, rs0, h0⟩ := hcons
      refine ⟨r, ?_, ?_⟩
      · rw [h0, List.getLast?_cons_cons, ← h0, hlast]
      · rw [hbal]
        simp only [List.map_cons, List.sum_cons]
        ring

theorem sum_map_neg {α : Type} (f : α → ℚ) (l : List α) :
    (l.map (fun x => -f x)).sum = -((l.map f).sum) := by
  induction l with
  | nil => simp
  | cons x xs ih =>
    simp only [List.map_cons, List.sum_cons, ih]
    ring

/-! ### Claim C2 -/

/-- C2, counterexample: for an account in a normally-credit category
(`Capital`), one transaction crediting it 100 gives a final ledger balance of
100 while the raw balance `Σ debit − Σ credit` is −100 — the two are not
equal, refuting the claim as stated. -/
theorem ledger_final_balance_sign_mismatch :
    accountLedgerFinalBalance ownerAccount [capCategory] [creditTx] = 100 ∧
    accountBalance ownerAccount.id [creditTx] = -100 ∧
    ¬accountLedgerFinalBalance ownerAccount [capCategory] [creditTx] =
        accountBalance ownerAccount.id [creditTx] := by
  have h1 : accountLedgerFinalBalance ownerAccount [capCategory] [creditTx] =
      0 + ((100 : ℚ) - 0) := rfl
  have h2 : accountBalance ownerAccount.id [creditTx] = 0 - (0 + (100 : ℚ)) := rfl
  refine ⟨by rw [h1]; norm_num, by rw [h2]; norm_num, ?_⟩
  rw [h1, h2]
  norm_num

/-- C2, amended: provided each transaction carries at most one entry for the
account (the shape every transaction builder in the source produces), the
final running balance of the account ledger equals the raw balance
`accountBalance = Σ debit − Σ credit` when the account's category is
normally debit, and equals its negation when the category is normally
credit. -/
theorem ledger_final_balance_signed_invariant
    (account : Account) (categories : List Category) (txns : List Transaction)
    (h : ∀ t ∈ txns,
      (t.entries.filter (fun e => e.accountId == account.id)).length ≤ 1) :
    accountLedgerFinalBalance account categories txns =
      if normallyDebit (categories.find? (fun c => c.id == account.categoryId)) then
        accountBalance account.id txns
      else -accountBalance account.id txns := by
  set nd := normallyDebit (categories.find? (fun c => c.id == account.categoryId))
    with hnd
  have hfinal : accountLedgerFinalBalance account categories txns =
      ((relevantTransactions account.id txns).map
        (ledgerContribution nd account.id)).sum := by
    rw [accountLedgerFinalBalance]
    simp only [accountLedger, ← hnd]
    cases hrel : relevantTransactions account.id txns with
    | nil => simp [ledgerRows]
    | cons t ts =>
      obtain ⟨r, hlast, hbal⟩ :=
        ledgerRows_getLast? nd account.id (t :: ts) 0 (by simp)
      rw [hlast]
      show r.balance = _
      rw [hbal, zero_add]
  rw [hfinal, relevantTransactions,
    List.Perm.sum_eq ((sortBy_perm _ _).map (ledgerContribution nd account.id))]
  have hcongr : ∀ t ∈ txns.filter
      (fun t => t.entries.any (fun e => e.accountId == account.id)),
      ledgerContribution nd account.id t =
        if nd then txnSigned account.id t else -txnSigned account.id t := by
    intro t ht
    obtain ⟨htm, hta⟩ := List.mem_filter.mp ht
    exact ledgerContribution_of_unique nd account.id t hta (h t htm)
  rw [List.map_congr_left hcongr]
  cases nd with
  | true =>
    simp only [if_true]
    rw [sum_map_filter_of_zero _ _ _
      (fun t _ hf => txnSigned_eq_zero account.id t hf)]
    rw [accountBalance_eq]
  | false =>
    simp only [if_false, Bool.false_eq_true]
    rw [sum_map_neg, sum_map_filter_of_zero _ _ _
      (fun t _ hf => txnSigned_eq_zero account.id t hf)]
    rw [accountBalance_eq]

/-- Witness for `ledger_final_balance_signed_invariant` at a concrete
normally-debit account and single transaction. -/
theorem ledger_final_balance_signed_invariant_witness :
    accountLedgerFinalBalance truckAccount [assetCategory] [creditTx] =
      if normallyDebit (([assetCategory] : List Category).find?
          (fun c => c.id == truckAccount.categoryId)) then
        accountBalance truckAccount.id [creditTx]
      else -accountBalance truckAccount.id [creditTx] :=
  ledger_final_balance_signed_invariant truckAccount [assetCategory] [creditTx]
    (by decide)

/-! ### Effect of each operation on the book store -/

theorem updateFirst_map {α β : Type} (g : α → β) {p : α → Bool} {f : α → α}
    {l ys : List α} {y : α} (h : updateFirst p f l = some (ys, y))
    (hg : ∀ x, g (f x) = g x) : ys.map g = l.map g := by
  induction l generalizing ys y with
  | nil => simp [updateFirst] at h
  | cons a as ih =>
    rw [updateFirst] at h
    split at h
    next =>
      rw [Option.some.injEq, Prod.mk.injEq] at h
      rw [← h.1]
      simp [hg a]
    next =>
      split at h
      next zs z hr =>
        rw [Option.some.injEq, Prod.mk.injEq] at h
        rw [← h.1, List.map_cons, List.map_cons, ih hr]
      next => exact absurd h (by simp)

theorem getOBE_books (s : DataState) (bookId : String) :
    (getOpeningBalanceEquityAccount s bookId).1.books = s.books := by
  rw [getOpeningBalanceEquityAccount]
  split
  next => rfl
  next => split <;> rfl

theorem getCategories_books (s : DataState) (bookId : String) :
    (getCategories s bookId).1.books = s.books := by
  simp only [getCategories]
  split <;> rfl

theorem addCategory_books {s : DataState} {now : ℕ} {bookId name : String}
    {s' : DataState} {c : Category} (h : addCategory s now bookId name = .ok (s', c)) :
    s'.books = s.books := by
  rw [addCategory] at h
  split at h
  next => exact absurd h (by simp)
  next =>
    rw [Except.ok.injEq, Prod.mk.injEq] at h
    rw [← h.1]

theorem updateTransaction_books {s : DataState} {bookId id : String} {d : TxData}
    {s' : DataState} {t : Transaction}
    (h : updateTransaction s bookId id d = .ok (s', t)) : s'.books = s.books := by
  rw [updateTransaction] at h
  split at h
  next => exact absurd h (by simp)
  next =>
    rw [Except.ok.injEq, Prod.mk.injEq] at h
    rw [← h.1]

theorem updateTransactionHighlight_books {s : DataState} {bookId id : String}
    {hl : Option String} {s' : DataState}
    (h : updateTransactionHighlight s bookId id hl = .ok s') : s'.books = s.books := by
  rw [updateTransactionHighlight] at h
  split at h
  next => exact absurd h (by simp)
  next =>
    rw [Except.ok.injEq] at h
    rw [← h]

theorem deleteTransaction_books {s : DataState} {now : ℕ} {bookId id : String}
    {s' : DataState} (h : deleteTransaction s now bookId id = .ok s') :
    s'.books = s.books := by
  rw [deleteTransaction] at h
  split at h
  next => exact absurd h (by simp)
  next =>
    rw [Except.ok.injEq] at h
    rw [← h]
    rfl

theorem deleteMultipleTransactions_books {s : DataState} {now : ℕ}
    {bookId : String} {ids : List String} {s' : DataState}
    (h : deleteMultipleTransactions s now bookId ids = .ok s') :
    s'.books = s.books := by
  rw [deleteMultipleTransactions] at h
  split at h
  next => exact absurd h (by simp)
  next =>
    rw [Except.ok.injEq] at h
    rw [← h]
    rfl

theorem deleteCategory_books {s : DataState} {now : ℕ} {bookId id : String}
    {s' : DataState} (h : deleteCategory s now bookId id = .ok s') :
    s'.books = s.books := by
  simp only [deleteCategory] at h
  split at h
  next => exact absurd h (by simp)
  next =>
    split at h
    next => exact absurd h (by simp)
    next =>
      split at h
      next => exact absurd h (by simp)
      next =>
        rw [Except.ok.injEq] at h
        rw [← h]
        rfl

theorem updateCategory_books {s : DataState} {bookId id name : String}
    {s' : DataState} {c : Category}
    (h : updateCategory s bookId id name = .ok (s', c)) : s'.books = s.books := by
  rw [updateCategory] at h
  split at h
  next => exact absurd h (by simp)
  next =>
    split at h
    next => exact absurd h (by simp)
    next =>
      split at h
      next =>
        rw [Except.ok.injEq, Prod.mk.injEq] at h
        rw [← h.1]
      next => exact absurd h (by simp)

theorem addAccount_books {s : DataState} {now : ℕ} {bookId : String}
    {d : AccountData} {s' : DataState} {a : Account}
    (h : addAccount s now bookId d = .ok (s', a)) : s'.books = s.books := by
  simp only [addAccount] at h
  split at h
  next => exact absurd h (by simp)
  next =>
    split at h
    next ob hob =>
      split at h
      next =>
        rw [Except.ok.injEq, Prod.mk.injEq] at h
        rw [← h.1, addTransaction]
        exact getOBE_books _ bookId
      next =>
        rw [Except.ok.injEq, Prod.mk.injEq] at h
        rw [← h.1]
    next =>
      rw [Except.ok.injEq, Prod.mk.injEq] at h
      rw [← h.1]

theorem openingBalanceCases_books {s : DataState} {now : ℕ}
    {bookId accountId : String} {d : AccountPatch} {ua : Account} {nc : Bool}
    {obt : Option Transaction} {obb : Option ℚ} {sMid : DataState}
    (h : openingBalanceCases s now bookId accountId d ua nc obt obb = .ok sMid) :
    sMid.books = s.books := by
  cases obt with
  | some tx =>
    cases obb with
    | some nb =>
      simp only [openingBalanceCases] at h
      split at h
      next =>
        cases hu : updateTransaction (getOpeningBalanceEquityAccount s bookId).1
            bookId tx.id
            { date := tx.date,
              description := "Opening Balance for " ++ ua.name,
              entries :=
                [ { accountId := accountId, amount := nb,
                    type := d.openingBalanceType.getD .debit },
                  { accountId := (getOpeningBalanceEquityAccount s bookId).2.id,
                    amount := nb,
                    type := (d.openingBalanceType.getD .debit).inv } ],
              highlight := tx.highlight } with
        | error e => rw [hu] at h; exact absurd h (by simp [Except.map])
        | ok r =>
          rw [hu] at h
          simp only [Except.map, Except.ok.injEq] at h
          rw [← h, updateTransaction_books hu, getOBE_books]
      next =>
        split at h
        next => exact deleteTransaction_books h
        next =>
          split at h
          next =>
            cases hu : updateTransaction s bookId tx.id
                { date := tx.date,
                  description := "Opening Balance for " ++ d.name.getD "",
                  entries := tx.entries, highlight := tx.highlight } with
            | error e => rw [hu] at h; exact absurd h (by simp [Except.map])
            | ok r =>
              rw [hu] at h
              simp only [Except.map, Except.ok.injEq] at h
              rw [← h, updateTransaction_books hu]
          next =>
            rw [Except.ok.injEq] at h
            rw [← h]
    | none =>
      simp only [openingBalanceCases] at h
      exact deleteTransaction_books h
  | none =>
    cases obb with
    | some nb =>
      simp only [openingBalanceCases] at h
      split at h
      next =>
        rw [Except.ok.injEq] at h
        rw [← h, addTransaction]
        exact getOBE_books s bookId
      next =>
        rw [Except.ok.injEq] at h
        rw [← h]
    | none =>
      simp only [openingBalanceCases, Except.ok.injEq] at h
      rw [← h]

theorem applyOpeningBalancePatch_books {s : DataState} {now : ℕ}
    {bookId accountId : String} {d : AccountPatch} {oa ua : Account}
    {nc : Bool} {sMid : DataState}
    (h : applyOpeningBalancePatch s now bookId accountId d oa ua nc = .ok sMid) :
    sMid.books = s.books := by
  rw [applyOpeningBalancePatch] at h
  exact openingBalanceCases_books h

theorem updateAccount_books {s : DataState} {now : ℕ} {bookId accountId : String}
    {d : AccountPatch} {s' : DataState} {a : Account}
    (h : updateAccount s now bookId accountId d = .ok (s', a)) :
    s'.books = s.books := by
  simp only [updateAccount] at h
  split at h
  next => exact absurd h (by simp)
  next acc hacc =>
    split at h
    next => exact absurd h (by simp)
    next =>
      split at h
      next => exact absurd h (by simp)
      next sMid hMid =>
        split at h
        next =>
          rw [Except.ok.injEq, Prod.mk.injEq] at h
          rw [← h.1]
          show sMid.books = s.books
          exact applyOpeningBalancePatch_books hMid
        next => exact absurd h (by simp)

theorem getBooks_of_nonempty (s : DataState) (now : ℕ)
    (h : s.books.isEmpty = false) : getBooks s now = (s, s.books) := by
  rw [getBooks, h]
  simp

theorem books_nonempty_of_default {s : DataState} (h : hasDefaultBook s = true) :
    s.books.isEmpty = false := by
  cases hb : s.books with
  | nil => rw [hasDefaultBook, hb] at h; simp at h
  | cons b bs => rfl

theorem any_map_book_id (l : List Book) :
    ((l.map Book.id).any fun i => i == "book_default") =
      l.any (fun b => b.id == "book_default") := by
  induction l with
  | nil => rfl
  | cons b bs ih => simp only [List.map_cons, List.any_cons, ih]

theorem hasDefault_of_map_id {l l' : List Book}
    (h : l'.map Book.id = l.map Book.id) :
    l'.any (fun b => b.id == "book_default") = l.any (fun b => b.id == "book_default") := by
  rw [← any_map_book_id, h, any_map_book_id]

theorem addBook_books {s : DataState} {now : ℕ} {name : String}
    {s' : DataState} {b : Book} (h : addBook s now name = .ok (s', b)) :
    s'.books = s.books ++ [⟨"book_" ++ natString now, name⟩] := by
  rw [addBook] at h
  split at h
  next => exact absurd h (by simp)
  next =>
    rw [Except.ok.injEq, Prod.mk.injEq] at h
    rw [← h.1]

theorem deleteAccount_books {s : DataState} {now : ℕ} {bookId id : String}
    {s' : DataState} (h : deleteAccount s now bookId id = .ok s') :
    s'.books = s.books := by
  simp only [deleteAccount] at h
  split at h
  next => exact absurd h (by simp)
  next =>
    split at h
    next => exact absurd h (by simp)
    next acc hacc =>
      split at h
      next hsome =>
        split at h
        next => exact absurd h (by simp)
        next =>
          split at h
          next => exact absurd h (by simp)
          next s1 heq =>
            rw [Except.ok.injEq] at h
            rw [← h]
            show s1.books = s.books
            split at heq
            next tx htx => exact deleteTransaction_books heq
            next => rw [Except.ok.injEq] at heq; rw [← heq]
      next hnone =>
        split at h
        next => exact absurd h (by simp)
        next =>
          split at h
          next => exact absurd h (by simp)
          next s1 heq =>
            rw [Except.ok.injEq] at h
            rw [← h]
            show s1.books = s.books
            split at heq
            next tx htx => exact deleteTransaction_books heq
            next => rw [Except.ok.injEq] at heq; rw [← heq]

theorem resolveTargetAccount_books {s : DataState} {now : ℕ}
    {targetBookId sourceAccountName : String} {sourceCategory : Category}
    {tai : Option String} {r : DataState × Account}
    (h : resolveTargetAccount s now targetBookId sourceAccountName
      sourceCategory tai = .ok r) : r.1.books = s.books := by
  cases tai with
  | some tid =>
    simp only [resolveTargetAccount] at h
    split at h
    next => exact absurd h (by simp)
    next found hfound =>
      rw [Except.ok.injEq] at h
      rw [← h]
  | none =>
    simp only [resolveTargetAccount] at h
    split at h
    next e heq => exact absurd h (by simp)
    next catResolved heq =>
      have hcatBooks : catResolved.1.books = s.books := by
        split at heq
        next c hc =>
          rw [Except.ok.injEq] at heq
          rw [← heq, getCategories_books]
        next hc =>
          rw [addCategory_books heq, getCategories_books]
      split at h
      next acc hacc =>
        rw [Except.ok.injEq] at h
        rw [← h]
        exact hcatBooks
      next hacc =>
        rw [show r.1.books = s.books from
          (addAccount_books h).trans hcatBooks]

theorem transfer_books {s : DataState} {now : ℕ}
    {sb tb sa san sc : String} {amt : ℚ} {ty : EntryType}
    {tai : Option String} {s' : DataState}
    (h : transferBalanceBetweenBooks s now sb tb sa san sc amt ty tai = .ok s') :
    s'.books = (getBooks s now).1.books := by
  simp only [transferBalanceBetweenBooks] at h
  split at h
  next => exact absurd h (by simp)
  next =>
    split at h
    next => exact absurd h (by simp)
    next =>
      split at h
      next => exact absurd h (by simp)
      next sourceCategory hcat =>
        split at h
        next e hres => exact absurd h (by simp)
        next resolved hres =>
          rw [Except.ok.injEq] at h
          rw [← h]
          show (getOpeningBalanceEquityAccount resolved.1 tb).1.books = _
          rw [getOBE_books, resolveTargetAccount_books hres, getCategories_books]
          show (getOpeningBalanceEquityAccount (getBooks s now).1 sb).1.books = _
          rw [getOBE_books]

theorem step_preserves_defaultBook {s s' : DataState} (h : Step s s')
    (hs : hasDefaultBook s = true) : hasDefaultBook s' = true := by
  cases h with
  | getBooks now =>
    rw [getBooks_of_nonempty s now (books_nonempty_of_default hs)]
    exact hs
  | addBook h =>
    rw [hasDefaultBook, addBook_books h, List.any_append]
    rw [hasDefaultBook] at hs
    rw [hs]
    rfl
  | updateBook h =>
    rw [updateBook, getBooks_of_nonempty _ _ (books_nonempty_of_default hs)] at h
    split at h
    next => exact absurd h (by simp)
    next bs b0 hup =>
      rw [Except.ok.injEq, Prod.mk.injEq] at h
      rw [hasDefaultBook, ← h.1]
      show (List.any bs fun bk => bk.id == "book_default") = true
      rw [hasDefaultBook] at hs
      rw [hasDefault_of_map_id (updateFirst_map Book.id hup (fun _ => rfl))]
      exact hs
  | deleteBook h =>
    rename_i now id
    simp only [deleteBook] at h
    split at h
    next => exact absurd h (by simp)
    next hid =>
      rw [getBooks_of_nonempty _ _ (books_nonempty_of_default hs)] at h
      split at h
      next => exact absurd h (by simp)
      next bk hbk =>
        rw [Except.ok.injEq] at h
        rw [hasDefaultBook, ← h]
        show (List.any (List.filter (fun bb => bb.id != id) s.books) fun bb =>
          bb.id == "book_default") = true
        rw [hasDefaultBook, List.any_eq_true] at hs
        obtain ⟨b, hb, hbid⟩ := hs
        rw [List.any_eq_true]
        refine ⟨b, List.mem_filter.mpr ⟨hb, ?_⟩, hbid⟩
        have hbid' : b.id = "book_default" := by simpa using hbid
        simp only [bne_iff_ne, ne_eq, hbid']
        intro hcon
        exact hid (by simp [hcon])
  | getOBE bookId => rw [hasDefaultBook, getOBE_books]; exact hs
  | getCategories bookId => rw [hasDefaultBook, getCategories_books]; exact hs
  | addTransaction now bookId d => exact hs
  | updateTransaction h => rw [hasDefaultBook, updateTransaction_books h]; exact hs
  | updateTransactionHighlight h =>
    rw [hasDefaultBook, updateTransactionHighlight_books h]; exact hs
  | deleteTransaction h => rw [hasDefaultBook, deleteTransaction_books h]; exact hs
  | deleteMultipleTransactions h =>
    rw [hasDefaultBook, deleteMultipleTransactions_books h]; exact hs
  | addCategory h => rw [hasDefaultBook, addCategory_books h]; exact hs
  | updateCategory h => rw [hasDefaultBook, updateCategory_books h]; exact hs
  | deleteCategory h => rw [hasDefaultBook, deleteCategory_books h]; exact hs
  | addAccount h => rw [hasDefaultBook, addAccount_books h]; exact hs
  | updateAccount h => rw [hasDefaultBook, updateAccount_books h]; exact hs
  | deleteAccount h => rw [hasDefaultBook, deleteAccount_books h]; exact hs
  | addNote now bookId text => exact hs
  | updateNote h =>
    rw [updateNote] at h
    split at h
    next => exact absurd h (by simp)
    next ns n0 hup =>
      rw [Except.ok.injEq, Prod.mk.injEq] at h
      rw [hasDefaultBook, ← h.1]
      exact hs
  | deleteNote bookId id => exact hs
  | restoreItem h =>
    rw [restoreItem] at h
    split at h
    next a ha hb =>
      rw [Except.ok.injEq] at h; rw [hasDefaultBook, ← h]; exact hs
    next t ha hb =>
      rw [Except.ok.injEq] at h; rw [hasDefaultBook, ← h]; exact hs
    next c ha hb =>
      rw [Except.ok.injEq] at h; rw [hasDefaultBook, ← h]; exact hs
    next b ha hb =>
      rw [Except.ok.injEq] at h
      rw [hasDefaultBook, ← h]
      show (List.any (s.books ++ [b]) fun bk => bk.id == "book_default") = true
      rw [List.any_append]
      rw [hasDefaultBook] at hs
      rw [hs]
      rfl
    all_goals exact absurd h (by simp)
  | deletePermanently item => exact hs
  | ensureDefaultBook =>
    rw [ensureDefaultBook]
    split
    next =>
      rw [hasDefaultBook]
      show (List.any (s.books ++ [⟨"book_default", "CASHBOOK"⟩]) fun bk =>
        bk.id == "book_default") = true
      rw [List.any_append]
      simp
    next => exact hs
  | transfer h =>
    rw [hasDefaultBook, transfer_books h,
      getBooks_of_nonempty _ _ (books_nonempty_of_default hs)]
    exact hs

/-- C6 counterexample to the literal claim: querying the book registry of the
empty JSON store once reaches a state whose registry is non-empty but holds
no book with id `book_default` — `getBooks` seeds `book_<timestamp>`
(`CASHBOOK`), and only the Supabase variant's `ensureDefaultBook` seeds
`book_default`. -/
theorem getBooks_seeds_foreign_default :
    Reach emptyState (getBooks emptyState 0).1 ∧
    (getBooks emptyState 0).2 ≠ [] ∧
    hasDefaultBook (getBooks emptyState 0).1 = false :=
  ⟨Relation.ReflTransGen.single (Step.getBooks emptyState 0), by decide, by decide⟩

/-- C6 (amended): once a book with id `book_default` is present (as seeded by
`ensureDefaultBook`), every state reachable through successful data-layer
operations still has it, and `deleteBook` of `book_default` always fails with
the protection error (the failure aborts before any store is written). -/
theorem default_book_invariant {s s' : DataState} (now : ℕ)
    (hs : hasDefaultBook s = true) (hr : Reach s s') :
    hasDefaultBook s' = true ∧
    deleteBook s' now "book_default" = .error "Cannot delete the default book." := by
  constructor
  · induction hr with
    | refl => exact hs
    | tail hab hbc ih => exact step_preserves_defaultBook hbc ih
  · rw [deleteBook]
    rfl

theorem default_book_invariant_witness :
    hasDefaultBook (ensureDefaultBook emptyState) = true ∧
    (hasDefaultBook (addNote (ensureDefaultBook emptyState) 5 "book_default" "todo").1 = true ∧
      deleteBook (addNote (ensureDefaultBook emptyState) 5 "book_default" "todo").1 7
          "book_default" =
        .error "Cannot delete the default book.") :=
  ⟨by decide, default_book_invariant 7 (by decide)
    (Relation.ReflTransGen.single
      (Step.addNote (ensureDefaultBook emptyState) 5 "book_default" "todo"))⟩

/-! ### Claim C5: cross-book balance transfer -/

theorem getCategories_transactions (s : DataState) (bookId : String) :
    (getCategories s bookId).1.transactions = s.transactions := by
  simp only [getCategories]
  split <;> rfl

theorem addCategory_transactions {s : DataState} {now : ℕ} {bookId name : String}
    {s' : DataState} {c : Category} (h : addCategory s now bookId name = .ok (s', c)) :
    s'.transactions = s.transactions := by
  rw [addCategory] at h
  split at h
  next => exact absurd h (by simp)
  next =>
    rw [Except.ok.injEq, Prod.mk.injEq] at h
    rw [← h.1]

theorem addAccount_transactions_none {s : DataState} {now : ℕ} {bookId : String}
    {d : AccountData} {s' : DataState} {a : Account}
    (hob : d.openingBalance = none)
    (h : addAccount s now bookId d = .ok (s', a)) :
    s'.transactions = s.transactions := by
  simp only [addAccount] at h
  split at h
  next => exact absurd h (by simp)
  next =>
    split at h
    next ob hobeq => rw [hob] at hobeq; exact absurd hobeq (by simp)
    next hobeq =>
      rw [Except.ok.injEq, Prod.mk.injEq] at h
      rw [← h.1]

theorem resolveTargetAccount_transactions {s : DataState} {now : ℕ}
    {targetBookId sourceAccountName : String} {sourceCategory : Category}
    {tai : Option String} {r : DataState × Account}
    (h : resolveTargetAccount s now targetBookId sourceAccountName
      sourceCategory tai = .ok r) : r.1.transactions = s.transactions := by
  cases tai with
  | some tid =>
    simp only [resolveTargetAccount] at h
    split at h
    next => exact absurd h (by simp)
    next found hfound =>
      rw [Except.ok.injEq] at h
      rw [← h]
  | none =>
    simp only [resolveTargetAccount] at h
    split at h
    next e heq => exact absurd h (by simp)
    next catResolved heq =>
      have hcatTx : catResolved.1.transactions = s.transactions := by
        split at heq
        next c hc =>
          rw [Except.ok.injEq] at heq
          rw [← heq, getCategories_transactions]
        next hc =>
          rw [addCategory_transactions heq, getCategories_transactions]
      split at h
      next acc hacc =>
        rw [Except.ok.injEq] at h
        rw [← h]
        exact hcatTx
      next hacc =>
        exact (addAccount_transactions_none rfl h).trans hcatTx

/-- The transaction-store shape left by a successful
`transferBalanceBetweenBooks`: one target-book leg and one source-book leg
prepended, both offset against the respective book's OBE account. -/
theorem transfer_shape {s : DataState} {now : ℕ}
    {sourceBookId targetBookId sourceAccountId sourceAccountName sourceCategoryId : String}
    {amount : ℚ} {balanceType : EntryType} {targetAccountId : Option String}
    {s' : DataState}
    (hbooks : s.books.isEmpty = false)
    (h : transferBalanceBetweenBooks s now sourceBookId targetBookId sourceAccountId
      sourceAccountName sourceCategoryId amount balanceType targetAccountId = .ok s') :
    (sourceBookId == targetBookId) = false ∧
    ∃ (tgtAccId srcDesc : String),
      s'.transactions =
        { id := "txn_" ++ natString now, date := now,
          description := "Transfer from another book",
          entries :=
            [ { accountId := tgtAccId, amount := amount, type := balanceType },
              { accountId := "acc_opening_balance_equity_" ++ targetBookId,
                amount := amount, type := balanceType.inv } ],
          bookId := targetBookId, highlight := none } ::
        { id := "txn_" ++ natString now, date := now, description := srcDesc,
          entries :=
            [ { accountId := sourceAccountId, amount := amount, type := balanceType.inv },
              { accountId := "acc_opening_balance_equity_" ++ sourceBookId,
                amount := amount, type := balanceType } ],
          bookId := sourceBookId, highlight := none } ::
        s.transactions := by
  simp only [transferBalanceBetweenBooks] at h
  split at h
  next => exact absurd h (by simp)
  next hne =>
    refine ⟨by simpa using hne, ?_⟩
    split at h
    next => exact absurd h (by simp)
    next =>
      rw [getBooks_of_nonempty _ _ hbooks] at h
      split at h
      next => exact absurd h (by simp)
      next sourceCategory hcat =>
        split at h
        next e hres => exact absurd h (by simp)
        next resolved hres =>
          rw [Except.ok.injEq] at h
          refine ⟨resolved.2.id,
            "Transfer to " ++ (Option.map (fun b => b.name)
              (List.find? (fun b => b.id == targetBookId) s.books)).getD "Other book", ?_⟩
          rw [← h]
          simp only [addTransaction]
          rw [getOBE_snd_id, getOBE_transactions,
            resolveTargetAccount_transactions hres, getCategories_transactions]
          simp only [addTransaction]
          rw [getOBE_snd_id, getOBE_transactions]

theorem entryPair_sum_zero (a1 a2 : String) (A : ℚ) (T : EntryType) :
    (([⟨a1, A, T, none⟩, ⟨a2, A, T.inv, none⟩] : List TransactionEntry).map
      entrySigned).sum = 0 := by
  cases T <;> simp [entrySigned, EntryType.inv]

theorem entryPair_sum_zero2 (a1 a2 : String) (A : ℚ) (T : EntryType) :
    (([⟨a1, A, T.inv, none⟩, ⟨a2, A, T, none⟩] : List TransactionEntry).map
      entrySigned).sum = 0 := by
  cases T <;> simp [entrySigned, EntryType.inv]

theorem bookTotal_cons_zero {b : String} {t : Transaction} {ts : List Transaction}
    (h0 : (t.entries.map entrySigned).sum = 0) :
    (((t :: ts).filter (fun u => u.bookId == b)).map
      (fun u => (u.entries.map entrySigned).sum)).sum =
    ((ts.filter (fun u => u.bookId == b)).map
      (fun u => (u.entries.map entrySigned).sum)).sum := by
  rw [List.filter_cons]
  split
  next => rw [List.map_cons, List.sum_cons, h0, zero_add]
  next => rfl

/-- C5: a successful `transferBalanceBetweenBooks` of amount `A` on side `T`
prepends exactly two transactions: a target-book leg `[{resolved target
account, A, T}, {target OBE, A, inverse T}]` and a source-book leg
`[{source account, A, inverse T}, {source OBE, A, T}]`.  The book-wide
totals of both books are unchanged (each leg nets to zero), the source
account's balance on side `T` drops by `A`, and the resolved target
account's balance on side `T` grows by `A` (the OBE-coincidence guards rule
out the degenerate case where both entries of a leg hit the same account). -/
theorem transfer_balance_conservation
    {s : DataState} {now : ℕ}
    {sourceBookId targetBookId sourceAccountId sourceAccountName sourceCategoryId : String}
    {amount : ℚ} {balanceType : EntryType} {targetAccountId : Option String}
    {s' : DataState}
    (hbooks : s.books.isEmpty = false)
    (h : transferBalanceBetweenBooks s now sourceBookId targetBookId sourceAccountId
      sourceAccountName sourceCategoryId amount balanceType targetAccountId = .ok s') :
    ∃ (tgtAccId srcDesc : String),
      s'.transactions =
        { id := "txn_" ++ natString now, date := now,
          description := "Transfer from another book",
          entries :=
            [ { accountId := tgtAccId, amount := amount, type := balanceType },
              { accountId := "acc_opening_balance_equity_" ++ targetBookId,
                amount := amount, type := balanceType.inv } ],
          bookId := targetBookId, highlight := none } ::
        { id := "txn_" ++ natString now, date := now, description := srcDesc,
          entries :=
            [ { accountId := sourceAccountId, amount := amount, type := balanceType.inv },
              { accountId := "acc_opening_balance_equity_" ++ sourceBookId,
                amount := amount, type := balanceType } ],
          bookId := sourceBookId, highlight := none } ::
        s.transactions ∧
      bookTotalBalance s' sourceBookId = bookTotalBalance s sourceBookId ∧
      bookTotalBalance s' targetBookId = bookTotalBalance s targetBookId ∧
      (sourceAccountId ≠ "acc_opening_balance_equity_" ++ sourceBookId →
        accountBalance sourceAccountId
            (s'.transactions.filter (fun t => t.bookId == sourceBookId)) =
          accountBalance sourceAccountId
            (s.transactions.filter (fun t => t.bookId == sourceBookId)) -
            typeSign balanceType * amount) ∧
      (tgtAccId ≠ "acc_opening_balance_equity_" ++ targetBookId →
        accountBalance tgtAccId
            (s'.transactions.filter (fun t => t.bookId == targetBookId)) =
          accountBalance tgtAccId
            (s.transactions.filter (fun t => t.bookId == targetBookId)) +
            typeSign balanceType * amount) := by
  obtain ⟨hne, tgtAccId, srcDesc, hshape⟩ := transfer_shape hbooks h
  have hne' : (targetBookId == sourceBookId) = false := by
    rw [beq_eq_false_iff_ne] at hne ⊢
    exact fun e => hne e.symm
  refine ⟨tgtAccId, srcDesc, hshape, ?_, ?_, ?_, ?_⟩
  · rw [bookTotalBalance, bookTotalBalance, hshape,
      bookTotal_cons_zero (entryPair_sum_zero _ _ _ _),
      bookTotal_cons_zero (entryPair_sum_zero2 _ _ _ _)]
  · rw [bookTotalBalance, bookTotalBalance, hshape,
      bookTotal_cons_zero (entryPair_sum_zero _ _ _ _),
      bookTotal_cons_zero (entryPair_sum_zero2 _ _ _ _)]
  · intro hsa
    have hobe : (("acc_opening_balance_equity_" ++ sourceBookId) == sourceAccountId)
        = false := beq_eq_false_iff_ne.mpr (Ne.symm hsa)
    rw [hshape]
    cases balanceType <;>
      simp [List.filter_cons, hne', hobe, accountBalance_eq, txnSigned,
        entrySigned, EntryType.inv, typeSign] <;>
      ring
  · intro hta
    have hobe : (("acc_opening_balance_equity_" ++ targetBookId) == tgtAccId)
        = false := beq_eq_false_iff_ne.mpr (Ne.symm hta)
    rw [hshape]
    cases balanceType <;>
      simp [List.filter_cons, hne, hne', hobe, accountBalance_eq, txnSigned,
        entrySigned, EntryType.inv, typeSign] <;>
      ring

/-- Witness for `transfer_balance_conservation` on `transferDemo`. -/
theorem transfer_balance_conservation_witness :
    tState.books.isEmpty = false ∧
    transferBalanceBetweenBooks tState 3 "b1" "b2" "a1" "Wallet" "c1" 50 .debit
      (some "a2") = .ok transferDemoState ∧
    (∃ (tgtAccId srcDesc : String),
      transferDemoState.transactions =
        { id := "txn_" ++ natString 3, date := 3,
          description := "Transfer from another book",
          entries :=
            [ { accountId := tgtAccId, amount := 50, type := EntryType.debit },
              { accountId := "acc_opening_balance_equity_" ++ "b2",
                amount := 50, type := EntryType.debit.inv } ],
          bookId := "b2", highlight := none } ::
        { id := "txn_" ++ natString 3, date := 3, description := srcDesc,
          entries :=
            [ { accountId := "a1", amount := 50, type := EntryType.debit.inv },
              { accountId := "acc_opening_balance_equity_" ++ "b1",
                amount := 50, type := EntryType.debit } ],
          bookId := "b1", highlight := none } ::
        tState.transactions ∧
      bookTotalBalance transferDemoState "b1" = bookTotalBalance tState "b1" ∧
      bookTotalBalance transferDemoState "b2" = bookTotalBalance tState "b2" ∧
      ("a1" ≠ "acc_opening_balance_equity_" ++ "b1" →
        accountBalance "a1"
            (transferDemoState.transactions.filter (fun t => t.bookId == "b1")) =
          accountBalance "a1"
            (tState.transactions.filter (fun t => t.bookId == "b1")) -
            typeSign EntryType.debit * 50) ∧
      (tgtAccId ≠ "acc_opening_balance_equity_" ++ "b2" →
        accountBalance tgtAccId
            (transferDemoState.transactions.filter (fun t => t.bookId == "b2")) =
          accountBalance tgtAccId
            (tState.transactions.filter (fun t => t.bookId == "b2")) +
            typeSign EntryType.debit * 50)) :=
  ⟨by decide, by rfl,
    @transfer_balance_conservation tState 3 "b1" "b2" "a1" "Wallet" "c1" 50
      EntryType.debit (some "a2") transferDemoState (by decide) (by rfl)⟩

end Studio
